import Mathlib

/-
Verification development for the add-event reconciliation engine in
cmd/ndm_daemonset/probe/addhandler.go.

The Go file is shallowly embedded below: each Go function becomes a Lean
definition with the same branching structure.  The probe's mutable pieces
(the device-hierarchy cache `BDHierarchy` and the etcd-backed resource
store) are threaded explicitly; every store call that the code issues is
additionally recorded in an effect trace so that "issues exactly these
calls" properties can be stated.

External collaborators that are not part of the file (UUID generation,
the resource-store client, `NewDeviceInfoFromBlockDevice().ToDevice()`,
and the partitioning collaborator) are either abstract parameters of an
`Env` structure or definitions modelled from the spec, marked as such.
-/

set_option maxHeartbeats 4000000

/-! ## Data model -/

inductive ClaimState where
  | unclaimed
  | claimed
  | released
deriving DecidableEq, Repr

inductive DeviceUsedBy where
  | noneUse
  | mayastor
  | zfsLocalPV
  | cstor
  | localPV
  | jiva
deriving DecidableEq, Repr

structure DeviceUse where
  inUse : Bool
  usedBy : DeviceUsedBy
deriving DecidableEq, Repr

structure DeviceAttributes where
  deviceType : String
  logicalBlockSize : Nat
deriving DecidableEq, Repr

structure CapacityInformation where
  storage : Nat
deriving DecidableEq, Repr

structure DependentDeviceInformation where
  parent : String
  partitions : List String
  holders : List String
deriving DecidableEq, Repr

structure FileSystemInformation where
  fileSystemUUID : String
deriving DecidableEq, Repr

structure PartitionInformation where
  partitionTableUUID : String
deriving DecidableEq, Repr

structure BlockDevice where
  devPath : String
  capacity : CapacityInformation
  deviceAttributes : DeviceAttributes
  dependentDevices : DependentDeviceInformation
  devUse : DeviceUse
  fsInfo : FileSystemInformation
  partitionInfo : PartitionInformation
  uuid : String
deriving DecidableEq, Repr

def blockDeviceTypePartition : String := "partition"

def blockDeviceTypeDisk : String := "disk"

/-- Resource record persisted in the store (apis.BlockDevice).  `active`
models the resource state toggled by `DeactivateBlockDevice`. -/
structure BDResource where
  name : String
  claimState : ClaimState
  active : Bool
  annotations : List (String × String)
  labels : List (String × String)
  deviceData : BlockDevice
deriving DecidableEq, Repr

/-! ## Constants from the source -/

def internalUUIDSchemeAnnot : String := "internal.openebs.io/uuid-scheme"

def legacyUUIDScheme : String := "legacy"

def gptUUIDScheme : String := "gpt"

def internalFSUUIDAnnot : String := "internal.openebs.io/fsuuid"

def internalPartitionUUIDAnnot : String := "internal.openebs.io/partition-uuid"

def blockDeviceTagLabel : String := "openebs.io/block-device-tag"

def zfsLocalPVString : String := "zfs-localPV"

/-! ## Key-value maps, the store and the hierarchy cache -/

def lookupKV (m : List (String × String)) (k : String) : Option String :=
  (m.find? (fun e => e.1 == k)).map (fun e => e.2)

def insertKV (m : List (String × String)) (k v : String) : List (String × String) :=
  (k, v) :: m.filter (fun e => !(e.1 == k))

abbrev Store := List BDResource

abbrev Cache := List (String × BlockDevice)

/-- Modelled from the spec: `Get(identifier)` on the resource store; `none`
is the NotFound outcome. -/
def storeGet (s : Store) (u : String) : Option BDResource :=
  s.find? (fun r => r.name == u)

/-- Modelled from the spec: `ListExisting(snapshot, identifier)`, i.e.
`GetExistingBlockDeviceResource`, lookup within an already-fetched
snapshot. -/
def getExistingBlockDeviceResource (snapshot : Store) (u : String) : Option BDResource :=
  snapshot.find? (fun r => r.name == u)

/-- Cache lookup, `pe.Controller.BDHierarchy[path]`. -/
def cacheLookup (c : Cache) (p : String) : Option BlockDevice :=
  (c.find? (fun e => e.1 == p)).map (fun e => e.2)

/-- Cache overwrite, `pe.Controller.BDHierarchy[path] = bd`. -/
def cacheUpsert (c : Cache) (p : String) (bd : BlockDevice) : Cache :=
  (p, bd) :: c.filter (fun e => !(e.1 == p))

/-! ## Store operations, modelled from the spec (§6 of the spec) -/

/-- Modelled from the spec: `NewDeviceInfoFromBlockDevice(&bd).ToDevice()`
builds a fresh resource named by the derived identifier; a fresh resource
starts unclaimed and active, with empty annotation and label maps. -/
def toDeviceResource (bd : BlockDevice) : BDResource :=
  { name := bd.uuid
    claimState := .unclaimed
    active := true
    annotations := []
    labels := []
    deviceData := bd }

/-- Modelled from the spec: an in-place update keeps the record's identity
(name) and claim state and refreshes annotations, labels and device
metadata ("a resource in any state other than Unclaimed must never be
overwritten with new identity data, only annotated/updated in place"). -/
def mergeUpdate (old new : BDResource) : BDResource :=
  { name := old.name
    claimState := old.claimState
    active := old.active
    annotations := new.annotations
    labels := new.labels
    deviceData := new.deviceData }

/-- Modelled from the spec: `Update(newResource, existingResource)`. -/
def storeUpdate (s : Store) (new ex : BDResource) : Store :=
  s.map (fun r => if r.name == ex.name then mergeUpdate r new else r)

/-- Modelled from the spec: `Deactivate(resource)` marks a resource
inactive without deleting it. -/
def storeDeactivate (s : Store) (target : BDResource) : Store :=
  s.map (fun r => if r.name == target.name then { r with active := false } else r)

/-- Errors surfaced by the add-event handler. -/
inductive NDMError where
  | zfsParentMissing (devPath : String)
  | zfsUUIDGenFailed (devPath : String)
  | parentInUseCheckFailed (devPath : String)
  | cannotGetParent (devPath : String)
  | unreachableState
  | alreadyExists (nm : String)
  | partitioningFailed (msg : String)
deriving DecidableEq, Repr

/-- Modelled from the spec: `Create(resource)`; creating a resource whose
identifier already has a record fails (at most one record per
identifier). -/
def storeCreate (s : Store) (r : BDResource) : Except NDMError Store :=
  match storeGet s r.name with
  | some _ => .error (.alreadyExists r.name)
  | none => .ok (s ++ [r])

/-! ## External collaborators -/

/-- Argument record of the partitioning collaborator
(`partition.Disk`). -/
structure PDisk where
  devPath : String
  diskSize : Nat
  logicalBlockSize : Nat
deriving DecidableEq, Repr

/-- Modelled from the spec: the pure identifier derivations of §4.2/§4.3
and the partitioning collaborator of §6, all external to the embedded
file, as abstract parameters.  `generateUUID` returns the primary (gpt)
identifier when derivable; `generateLegacyUUID` returns the legacy
identifier together with the `isVirt` flag; `generateUUIDFromPartitionTable`
is the derivation used for the ZFS-localPV shadow path;
`createSinglePartition` returns the collaborator's error, if any. -/
structure Env where
  generateUUID : BlockDevice → Option String
  generateLegacyUUID : BlockDevice → String × Bool
  generateUUIDFromPartitionTable : BlockDevice → Option String
  createSinglePartition : PDisk → Option NDMError

/-- Calls issued against the outside world while processing one event. -/
inductive Effect where
  | createBD (r : BDResource)
  | updateBD (r : BDResource) (ex : BDResource)
  | deactivateBD (r : BDResource)
  | createPartitionCall (d : PDisk)
deriving DecidableEq, Repr

def Effect.isStoreWrite : Effect → Bool
  | .createBD _ => true
  | .updateBD _ _ => true
  | _ => false

def Effect.isStoreMutation : Effect → Bool
  | .createPartitionCall _ => false
  | _ => true

def writtenResource : Effect → Option BDResource
  | .createBD r => some r
  | .updateBD r _ => some r
  | _ => none

/-! ## The embedded functions of addhandler.go -/

/-- Embeds `addBlockDeviceToHierarchyCache` (the cache part; the returned
bool is only used for logging in the source). -/
def addBlockDeviceToHierarchyCache (c : Cache) (bd : BlockDevice) : Cache :=
  cacheUpsert c bd.devPath bd

/-- Embeds `createOrUpdateWithAnnotation` (name shortened): builds the
resource for `bd`, overwrites its annotation map with the supplied one and
issues an update when an existing resource was passed, a create
otherwise. -/
def createOrUpdateWithAnnot (ann : List (String × String)) (bd : BlockDevice)
    (existingBD : Option BDResource) (store : Store) :
    Except NDMError Unit × Store × List Effect :=
  let bdAPI := { toDeviceResource bd with annotations := ann }
  match existingBD with
  | some ex => (.ok (), storeUpdate store bdAPI ex, [Effect.updateBD bdAPI ex])
  | none =>
    match storeCreate store bdAPI with
    | .error e => (.error e, store, [Effect.createBD bdAPI])
    | .ok s' => (.ok (), s', [Effect.createBD bdAPI])

/-- Embeds `createOrUpdateWithFSUUID`. -/
def createOrUpdateWithFSUUID (bd : BlockDevice) (existingBD : Option BDResource)
    (store : Store) : Except NDMError Unit × Store × List Effect :=
  createOrUpdateWithAnnot
    [(internalUUIDSchemeAnnot, legacyUUIDScheme),
     (internalFSUUIDAnnot, bd.fsInfo.fileSystemUUID)]
    bd existingBD store

/-- Embeds `createOrUpdateWithPartitionUUID`. -/
def createOrUpdateWithPartitionUUID (bd : BlockDevice) (existingBD : Option BDResource)
    (store : Store) : Except NDMError Unit × Store × List Effect :=
  createOrUpdateWithAnnot
    [(internalUUIDSchemeAnnot, legacyUUIDScheme),
     (internalPartitionUUIDAnnot, bd.partitionInfo.partitionTableUUID)]
    bd existingBD store

/-- Embeds `getExistingBDWithFsUuid`. -/
def getExistingBDWithFsUuid (bd : BlockDevice) (snapshot : Store) : Option BDResource :=
  if bd.fsInfo.fileSystemUUID.length = 0 then none
  else snapshot.find?
    (fun r => lookupKV r.annotations internalFSUUIDAnnot == some bd.fsInfo.fileSystemUUID)

/-- Embeds `getExistingBDWithPartitionUUID`. -/
def getExistingBDWithPartitionUUID (bd : BlockDevice) (snapshot : Store) : Option BDResource :=
  if bd.partitionInfo.partitionTableUUID.length = 0 then none
  else snapshot.find?
    (fun r => lookupKV r.annotations internalPartitionUUIDAnnot ==
      some bd.partitionInfo.partitionTableUUID)

/-- Embeds `deviceInUseByMayastor`; the source's error is always nil, so
only the continue/stop bool remains. -/
def deviceInUseByMayastor (bd : BlockDevice) : Bool :=
  if !bd.devUse.inUse then true
  else if !(bd.devUse.usedBy = DeviceUsedBy.mayastor) then true
  else false

/-- Embeds the part of `deviceInUseByZFSLocalPV` after the
partition/parent check (source lines 354 onward). -/
def deviceInUseByZFSLocalPVTail (env : Env) (bd : BlockDevice) (store : Store) :
    Except NDMError Bool × Store × List Effect :=
  if !bd.devUse.inUse then (.ok true, store, [])
  else if !(bd.devUse.usedBy = DeviceUsedBy.zfsLocalPV) then (.ok true, store, [])
  else
    match env.generateUUIDFromPartitionTable bd with
    | none => (.error (.zfsUUIDGenFailed bd.devPath), store, [])
    | some u =>
      let bd' := { bd with uuid := u }
      let bdAPI0 := toDeviceResource bd'
      let bdAPI := { bdAPI0 with
        labels := insertKV bdAPI0.labels blockDeviceTagLabel zfsLocalPVString }
      match storeCreate store bdAPI with
      | .error e => (.error e, store, [Effect.createBD bdAPI])
      | .ok s' => (.ok false, s', [Effect.createBD bdAPI])

/-- Embeds `deviceInUseByZFSLocalPV`. -/
def deviceInUseByZFSLocalPV (env : Env) (bd : BlockDevice) (cache : Cache) (store : Store) :
    Except NDMError Bool × Store × List Effect :=
  if bd.deviceAttributes.deviceType = blockDeviceTypePartition then
    match cacheLookup cache bd.dependentDevices.parent with
    | none => (.error (.zfsParentMissing bd.devPath), store, [])
    | some parentBD =>
      if parentBD.devUse.inUse = true ∧ parentBD.devUse.usedBy = DeviceUsedBy.zfsLocalPV then
        (.ok false, store, [])
      else
        deviceInUseByZFSLocalPVTail env bd store
  else
    deviceInUseByZFSLocalPVTail env bd store

/-- Embeds `handleUnmanagedDevices`. -/
def handleUnmanagedDevices (env : Env) (bd : BlockDevice) (cache : Cache) (store : Store) :
    Except NDMError Bool × Store × List Effect :=
  if deviceInUseByMayastor bd then
    deviceInUseByZFSLocalPV env bd cache store
  else
    (.ok false, store, [])

/-- Embeds `isParentDeviceInUse`. -/
def isParentDeviceInUse (bd : BlockDevice) (cache : Cache) : Except NDMError Bool :=
  if !(bd.deviceAttributes.deviceType = blockDeviceTypePartition) then .ok false
  else
    match cacheLookup cache bd.dependentDevices.parent with
    | none => .error (.parentInUseCheckFailed bd.devPath)
    | some parentBD => .ok parentBD.devUse.inUse

/-- Go returns `(false, err)` from the createOrUpdate branches of the
upgrade functions; this maps the unit result accordingly. -/
def exceptToFalse (r : Except NDMError Unit) : Except NDMError Bool :=
  match r with
  | .ok _ => .ok false
  | .error e => .error e

/-- Embeds the legacy-identifier part of `upgradeDeviceInUseByCStor`
(source lines 404 onward). -/
def upgradeCStorLegacyPart (env : Env) (bd : BlockDevice) (snapshot : Store) (store : Store) :
    Except NDMError Bool × Store × List Effect :=
  let lv := env.generateLegacyUUID bd
  let byName := getExistingBlockDeviceResource snapshot lv.1
  let existingLegacyBD :=
    match getExistingBDWithPartitionUUID bd snapshot with
    | some r => some r
    | none => byName
  match existingLegacyBD with
  | none =>
    let r := createOrUpdateWithPartitionUUID { bd with uuid := lv.1 } none store
    (exceptToFalse r.1, r.2.1, r.2.2)
  | some ex =>
    if !(ex.claimState = ClaimState.unclaimed) then
      let r := createOrUpdateWithPartitionUUID { bd with uuid := ex.name } (some ex) store
      (exceptToFalse r.1, r.2.1, r.2.2)
    else if lv.2 then
      let r := createOrUpdateWithPartitionUUID { bd with uuid := ex.name } (some ex) store
      (exceptToFalse r.1, r.2.1, r.2.2)
    else
      (.error .unreachableState, store, [])

/-- Embeds `upgradeDeviceInUseByCStor`. -/
def upgradeDeviceInUseByCStor (env : Env) (bd : BlockDevice) (snapshot : Store)
    (store : Store) : Except NDMError Bool × Store × List Effect :=
  match env.generateUUID bd with
  | some uuid =>
    match getExistingBlockDeviceResource snapshot uuid with
    | some existingBD =>
      if !(existingBD.claimState = ClaimState.unclaimed) then (.ok true, store, [])
      else (.error .unreachableState, store, [])
    | none => upgradeCStorLegacyPart env bd snapshot store
  | none => upgradeCStorLegacyPart env bd snapshot store

/-- Embeds the legacy-identifier part of `upgradeDeviceInUseByLocalPV`
(source lines 460 onward). -/
def upgradeLocalPVLegacyPart (env : Env) (bd : BlockDevice) (snapshot : Store) (store : Store) :
    Except NDMError Bool × Store × List Effect :=
  let lv := env.generateLegacyUUID bd
  let byName := getExistingBlockDeviceResource snapshot lv.1
  let existingLegacyBD :=
    match getExistingBDWithFsUuid bd snapshot with
    | some r => some r
    | none => byName
  match existingLegacyBD with
  | none =>
    let r := createOrUpdateWithFSUUID { bd with uuid := lv.1 } none store
    (exceptToFalse r.1, r.2.1, r.2.2)
  | some ex =>
    if !(ex.claimState = ClaimState.unclaimed) then
      let r := createOrUpdateWithFSUUID { bd with uuid := ex.name } (some ex) store
      (exceptToFalse r.1, r.2.1, r.2.2)
    else if lv.2 then
      let r := createOrUpdateWithFSUUID { bd with uuid := ex.name } (some ex) store
      (exceptToFalse r.1, r.2.1, r.2.2)
    else
      (.error .unreachableState, store, [])

/-- Embeds `upgradeDeviceInUseByLocalPV`. -/
def upgradeDeviceInUseByLocalPV (env : Env) (bd : BlockDevice) (snapshot : Store)
    (store : Store) : Except NDMError Bool × Store × List Effect :=
  match env.generateUUID bd with
  | some uuid =>
    match getExistingBlockDeviceResource snapshot uuid with
    | some existingBD =>
      if !(existingBD.claimState = ClaimState.unclaimed) then (.ok true, store, [])
      else (.error .unreachableState, store, [])
    | none => upgradeLocalPVLegacyPart env bd snapshot store
  | none => upgradeLocalPVLegacyPart env bd snapshot store

/-- Embeds `upgradeBD`. -/
def upgradeBD (env : Env) (bd : BlockDevice) (snapshot : Store) (store : Store) :
    Except NDMError Bool × Store × List Effect :=
  if !bd.devUse.inUse then (.ok true, store, [])
  else if bd.devUse.usedBy = DeviceUsedBy.localPV then
    upgradeDeviceInUseByLocalPV env bd snapshot store
  else if bd.devUse.usedBy = DeviceUsedBy.cstor then
    upgradeDeviceInUseByCStor env bd snapshot store
  else (.ok true, store, [])

/-- Embeds `createBlockDeviceResourceIfNoHolders`. -/
def createBlockDeviceResourceIfNoHolders (bd : BlockDevice) (snapshot : Store)
    (store : Store) : Except NDMError Unit × Store × List Effect :=
  if bd.dependentDevices.holders.length > 0 then (.ok (), store, [])
  else
    let existing := getExistingBlockDeviceResource snapshot bd.uuid
    createOrUpdateWithAnnot [(internalUUIDSchemeAnnot, gptUUIDScheme)] bd existing store

deriving instance DecidableEq for Except

/-- Result of processing one add event: the Go return value, the final
cache, the final store and the issued calls. -/
structure AddResult where
  res : Except NDMError Unit
  cache : Cache
  store : Store
  trace : List Effect
deriving DecidableEq, Repr

/-- Embeds `addBlockDevice`, the add-event handler. -/
def addBlockDevice (env : Env) (bd : BlockDevice) (snapshot : Store)
    (cache : Cache) (store : Store) : AddResult :=
  match handleUnmanagedDevices env bd cache store with
  | (.error e, st, tr) => ⟨.error e, cache, st, tr⟩
  | (.ok false, st, tr) => ⟨.ok (), cache, st, tr⟩
  | (.ok true, st, tr) =>
    match isParentDeviceInUse bd cache with
    | .error e => ⟨.error e, cache, st, tr⟩
    | .ok true => ⟨.ok (), cache, st, tr⟩
    | .ok false =>
      match upgradeBD env bd snapshot st with
      | (.error e, st2, tr2) => ⟨.error e, cache, st2, tr ++ tr2⟩
      | (.ok false, st2, tr2) => ⟨.ok (), cache, st2, tr ++ tr2⟩
      | (.ok true, st2, tr2) =>
        match env.generateUUID bd with
        | none =>
          if bd.dependentDevices.partitions.length > 0 ∨
              bd.dependentDevices.holders.length > 0 then
            ⟨.ok (), cache, st2, tr ++ tr2⟩
          else
            let d : PDisk := ⟨bd.devPath, bd.capacity.storage,
              bd.deviceAttributes.logicalBlockSize⟩
            match env.createSinglePartition d with
            | some e => ⟨.error e, cache, st2, tr ++ tr2 ++ [Effect.createPartitionCall d]⟩
            | none => ⟨.ok (), cache, st2, tr ++ tr2 ++ [Effect.createPartitionCall d]⟩
        | some uuid =>
          let bd' := { bd with uuid := uuid }
          let cache' := addBlockDeviceToHierarchyCache cache bd'
          match storeGet st2 uuid with
          | none =>
            if bd'.deviceAttributes.deviceType = blockDeviceTypePartition then
              match cacheLookup cache' bd'.dependentDevices.parent with
              | none => ⟨.error (.cannotGetParent bd'.devPath), cache', st2, tr ++ tr2⟩
              | some parentBD =>
                match env.generateUUID parentBD with
                | none =>
                  let r := createBlockDeviceResourceIfNoHolders bd' snapshot st2
                  ⟨r.1, cache', r.2.1, tr ++ tr2 ++ r.2.2⟩
                | some parentUUID =>
                  match storeGet st2 parentUUID with
                  | none =>
                    let r := createBlockDeviceResourceIfNoHolders bd' snapshot st2
                    ⟨r.1, cache', r.2.1, tr ++ tr2 ++ r.2.2⟩
                  | some parentBDAPI =>
                    if !(parentBDAPI.claimState = ClaimState.unclaimed) then
                      ⟨.ok (), cache', st2, tr ++ tr2⟩
                    else
                      let st3 := storeDeactivate st2 parentBDAPI
                      let existing := getExistingBlockDeviceResource snapshot bd'.uuid
                      let r := createOrUpdateWithAnnot
                        [(internalUUIDSchemeAnnot, gptUUIDScheme)] bd' existing st3
                      ⟨r.1, cache', r.2.1,
                        tr ++ tr2 ++ [Effect.deactivateBD parentBDAPI] ++ r.2.2⟩
            else if bd'.dependentDevices.partitions.length > 0 then
              ⟨.ok (), cache', st2, tr ++ tr2⟩
            else
              let r := createBlockDeviceResourceIfNoHolders bd' snapshot st2
              ⟨r.1, cache', r.2.1, tr ++ tr2 ++ r.2.2⟩
          | some bdAPI =>
            if !(bdAPI.claimState = ClaimState.unclaimed) then
              let r := createOrUpdateWithAnnot
                [(internalUUIDSchemeAnnot, gptUUIDScheme)] bd' (some bdAPI) st2
              ⟨r.1, cache', r.2.1, tr ++ tr2 ++ r.2.2⟩
            else
              let existing := getExistingBlockDeviceResource snapshot bd'.uuid
              let r := createOrUpdateWithAnnot
                [(internalUUIDSchemeAnnot, gptUUIDScheme)] bd' existing st2
              ⟨r.1, cache', r.2.1, tr ++ tr2 ++ r.2.2⟩

/-- One node's event-processing state: the hierarchy cache and the
resource store. -/
structure PEState where
  cache : Cache
  store : Store
deriving DecidableEq, Repr

/-- Processing one add event end to end: the snapshot handed to
`addBlockDevice` is the store's list at event entry. -/
def processAddEvent (env : Env) (bd : BlockDevice) (s : PEState) : AddResult :=
  addBlockDevice env bd s.store s.cache s.store

def afterState (r : AddResult) : PEState := ⟨r.cache, r.store⟩

/-! ## Basic lemmas about the modelled operations -/

theorem mergeUpdate_name (old new : BDResource) : (mergeUpdate old new).name = old.name := rfl

theorem mergeUpdate_claimState (old new : BDResource) :
    (mergeUpdate old new).claimState = old.claimState := rfl

theorem mergeUpdate_active (old new : BDResource) :
    (mergeUpdate old new).active = old.active := rfl

theorem mergeUpdate_self (x : BDResource) : mergeUpdate x x = x := rfl

theorem mergeUpdate_merge (x n m : BDResource) :
    mergeUpdate (mergeUpdate x n) m = mergeUpdate x m := rfl

theorem storeUpdate_names (s : Store) (n e : BDResource) :
    (storeUpdate s n e).map (fun r => r.name) = s.map (fun r => r.name) := by
  unfold storeUpdate
  rw [List.map_map]
  apply List.map_congr_left
  intro a _
  by_cases h : a.name = e.name <;> simp [h, mergeUpdate]

theorem storeDeactivate_names (s : Store) (t : BDResource) :
    (storeDeactivate s t).map (fun r => r.name) = s.map (fun r => r.name) := by
  unfold storeDeactivate
  rw [List.map_map]
  apply List.map_congr_left
  intro a _
  by_cases h : a.name = t.name <;> simp [h]

theorem storeGet_storeUpdate (s : Store) (n e : BDResource) (u : String) :
    storeGet (storeUpdate s n e) u =
      (storeGet s u).map (fun x => if x.name == e.name then mergeUpdate x n else x) := by
  unfold storeGet storeUpdate
  rw [List.find?_map]
  have hp : ((fun r : BDResource => r.name == u) ∘
      (fun r => if r.name == e.name then mergeUpdate r n else r)) =
      (fun r : BDResource => r.name == u) := by
    funext r
    by_cases h : r.name = e.name <;> simp [h, mergeUpdate]
  rw [hp]

theorem storeGet_storeDeactivate (s : Store) (t : BDResource) (u : String) :
    storeGet (storeDeactivate s t) u =
      (storeGet s u).map (fun x => if x.name == t.name then { x with active := false } else x) := by
  unfold storeGet storeDeactivate
  rw [List.find?_map]
  have hp : ((fun r : BDResource => r.name == u) ∘
      (fun r => if r.name == t.name then { r with active := false } else r)) =
      (fun r : BDResource => r.name == u) := by
    funext r
    by_cases h : r.name = t.name <;> simp [h]
  rw [hp]

theorem storeGet_append (s : Store) (r : BDResource) (u : String) :
    storeGet (s ++ [r]) u = (storeGet s u).or (storeGet [r] u) := by
  unfold storeGet
  exact List.find?_append

theorem storeGet_eq_none_iff (s : Store) (u : String) :
    storeGet s u = none ↔ ∀ x ∈ s, ¬x.name = u := by
  unfold storeGet
  rw [List.find?_eq_none]
  constructor
  · intro h x hx
    have := h x hx
    simpa using this
  · intro h x hx
    simpa using h x hx

theorem storeGet_name (s : Store) (u : String) (r : BDResource)
    (h : storeGet s u = some r) : r.name = u := by
  have := List.find?_some h
  simpa using this

theorem storeGet_mem (s : Store) (u : String) (r : BDResource)
    (h : storeGet s u = some r) : r ∈ s :=
  List.mem_of_find?_eq_some h

theorem cacheLookup_upsert_self (c : Cache) (p : String) (bd : BlockDevice) :
    cacheLookup (cacheUpsert c p bd) p = some bd := by
  simp [cacheLookup, cacheUpsert, List.find?_cons_of_pos]

theorem find?_filter_keyne (c : Cache) (p q : String) (h : ¬q = p) :
    List.find? (fun e => e.1 == q) (c.filter (fun e => !(e.1 == p))) =
      List.find? (fun e => e.1 == q) c := by
  induction c with
  | nil => rfl
  | cons a t ih =>
    rw [List.filter_cons]
    by_cases hap : a.1 = p
    · rw [if_neg (by simp [hap]), ih,
        List.find?_cons_of_neg _ (by simp [hap]; intro hh; exact h hh.symm)]
    · rw [if_pos (by simp [hap])]
      by_cases hq : a.1 = q
      · rw [List.find?_cons_of_pos _ (by simp [hq]), List.find?_cons_of_pos _ (by simp [hq])]
      · rw [List.find?_cons_of_neg _ (by simp [hq]), List.find?_cons_of_neg _ (by simp [hq]),
          ih]

theorem cacheLookup_upsert_ne (c : Cache) (p : String) (bd : BlockDevice) (q : String)
    (h : ¬q = p) : cacheLookup (cacheUpsert c p bd) q = cacheLookup c q := by
  unfold cacheLookup cacheUpsert
  rw [List.find?_cons_of_neg _ (by simp; exact fun hh => h hh.symm), find?_filter_keyne c p q h]

theorem cacheUpsert_idem (c : Cache) (p : String) (bd bd' : BlockDevice) :
    cacheUpsert (cacheUpsert c p bd) p bd' = cacheUpsert c p bd' := by
  unfold cacheUpsert
  rw [List.filter_cons]
  simp only [beq_self_eq_true, Bool.not_true, Bool.false_eq_true, not_false_eq_true, if_neg]
  rw [List.filter_filter]
  simp

/-! ## Characterization of the helper functions -/

theorem exceptToFalse_ne_true (r : Except NDMError Unit) : exceptToFalse r ≠ .ok true := by
  cases r <;> simp [exceptToFalse]

theorem zfsLocalPVTail_true (env : Env) (bd : BlockDevice) (store st : Store)
    (tr : List Effect) (h : deviceInUseByZFSLocalPVTail env bd store = (.ok true, st, tr)) :
    st = store ∧ tr = [] := by
  simp only [deviceInUseByZFSLocalPVTail] at h
  split at h
  · simp_all
  · split at h
    · simp_all
    · split at h
      · simp_all
      · split at h <;> simp_all

theorem deviceInUseByZFSLocalPV_true (env : Env) (bd : BlockDevice) (cache : Cache)
    (store st : Store) (tr : List Effect)
    (h : deviceInUseByZFSLocalPV env bd cache store = (.ok true, st, tr)) :
    st = store ∧ tr = [] := by
  simp only [deviceInUseByZFSLocalPV] at h
  split at h
  · split at h
    · simp_all
    · split at h
      · simp_all
      · exact zfsLocalPVTail_true env bd store st tr h
  · exact zfsLocalPVTail_true env bd store st tr h

theorem handleUnmanagedDevices_true (env : Env) (bd : BlockDevice) (cache : Cache)
    (store st : Store) (tr : List Effect)
    (h : handleUnmanagedDevices env bd cache store = (.ok true, st, tr)) :
    st = store ∧ tr = [] := by
  simp only [handleUnmanagedDevices] at h
  split at h
  · exact deviceInUseByZFSLocalPV_true env bd cache store st tr h
  · simp_all

theorem upgradeCStorLegacyPart_ne_true (env : Env) (bd : BlockDevice)
    (snapshot store : Store) :
    ∀ st tr, upgradeCStorLegacyPart env bd snapshot store ≠ (.ok true, st, tr) := by
  intro st tr h
  simp only [upgradeCStorLegacyPart] at h
  split at h
  · rw [Prod.mk.injEq] at h
    exact exceptToFalse_ne_true _ h.1
  · split at h
    · rw [Prod.mk.injEq] at h
      exact exceptToFalse_ne_true _ h.1
    · split at h
      · rw [Prod.mk.injEq] at h
        exact exceptToFalse_ne_true _ h.1
      · simp_all

theorem upgradeLocalPVLegacyPart_ne_true (env : Env) (bd : BlockDevice)
    (snapshot store : Store) :
    ∀ st tr, upgradeLocalPVLegacyPart env bd snapshot store ≠ (.ok true, st, tr) := by
  intro st tr h
  simp only [upgradeLocalPVLegacyPart] at h
  split at h
  · rw [Prod.mk.injEq] at h
    exact exceptToFalse_ne_true _ h.1
  · split at h
    · rw [Prod.mk.injEq] at h
      exact exceptToFalse_ne_true _ h.1
    · split at h
      · rw [Prod.mk.injEq] at h
        exact exceptToFalse_ne_true _ h.1
      · simp_all

theorem upgradeDeviceInUseByCStor_true (env : Env) (bd : BlockDevice)
    (snapshot store st : Store) (tr : List Effect)
    (h : upgradeDeviceInUseByCStor env bd snapshot store = (.ok true, st, tr)) :
    st = store ∧ tr = [] := by
  simp only [upgradeDeviceInUseByCStor] at h
  split at h
  · split at h
    · split at h
      · simp_all
      · simp_all
    · exact absurd h (upgradeCStorLegacyPart_ne_true env bd snapshot store st tr)
  · exact absurd h (upgradeCStorLegacyPart_ne_true env bd snapshot store st tr)

theorem upgradeDeviceInUseByLocalPV_true (env : Env) (bd : BlockDevice)
    (snapshot store st : Store) (tr : List Effect)
    (h : upgradeDeviceInUseByLocalPV env bd snapshot store = (.ok true, st, tr)) :
    st = store ∧ tr = [] := by
  simp only [upgradeDeviceInUseByLocalPV] at h
  split at h
  · split at h
    · split at h
      · simp_all
      · simp_all
    · exact absurd h (upgradeLocalPVLegacyPart_ne_true env bd snapshot store st tr)
  · exact absurd h (upgradeLocalPVLegacyPart_ne_true env bd snapshot store st tr)

theorem upgradeBD_true (env : Env) (bd : BlockDevice) (snapshot store st : Store)
    (tr : List Effect) (h : upgradeBD env bd snapshot store = (.ok true, st, tr)) :
    st = store ∧ tr = [] := by
  simp only [upgradeBD] at h
  split at h
  · simp_all
  · split at h
    · exact upgradeDeviceInUseByLocalPV_true env bd snapshot store st tr h
    · split at h
      · exact upgradeDeviceInUseByCStor_true env bd snapshot store st tr h
      · simp_all

theorem getExisting_eq_storeGet (s : Store) (u : String) :
    getExistingBlockDeviceResource s u = storeGet s u := rfl

/-! ## Concrete sample data used by witnesses and counterexamples -/

/-- A plain disk with no identity-bearing attributes. -/
def sampleDisk : BlockDevice :=
  { devPath := "/dev/sdx"
    capacity := ⟨1000000⟩
    deviceAttributes := ⟨"disk", 512⟩
    dependentDevices := ⟨"", [], []⟩
    devUse := ⟨false, .noneUse⟩
    fsInfo := ⟨""⟩
    partitionInfo := ⟨""⟩
    uuid := "" }

/-- A partition of `sampleDisk`. -/
def samplePartition : BlockDevice :=
  { devPath := "/dev/sdx1"
    capacity := ⟨500000⟩
    deviceAttributes := ⟨"partition", 512⟩
    dependentDevices := ⟨"/dev/sdx", [], []⟩
    devUse := ⟨false, .noneUse⟩
    fsInfo := ⟨""⟩
    partitionInfo := ⟨""⟩
    uuid := "" }

/-- Environment in which no device has a derivable primary identifier. -/
def envNoUUID : Env :=
  { generateUUID := fun _ => none
    generateLegacyUUID := fun _ => ("legacy-uuid-1", false)
    generateUUIDFromPartitionTable := fun _ => none
    createSinglePartition := fun _ => none }

/-- Environment deriving a primary identifier from the device path. -/
def envPathUUID : Env :=
  { envNoUUID with generateUUID := fun b => some ("bdev-" ++ b.devPath) }

/-! ## C9 -/

/-- C9: for every add event whose device is a partition that is not in use,
a parent missing from the hierarchy cache makes the ownership classifier's
`deviceInUseByZFSLocalPV` return the missing-parent error before any in-use
check, and the whole event fails with that error, an unchanged store and no
issued calls. -/
theorem C9_classifier_requires_parent (env : Env) (bd : BlockDevice) (s : PEState)
    (hPart : bd.deviceAttributes.deviceType = blockDeviceTypePartition)
    (hNoUse : bd.devUse.inUse = false)
    (hParent : cacheLookup s.cache bd.dependentDevices.parent = none) :
    deviceInUseByZFSLocalPV env bd s.cache s.store =
      (.error (.zfsParentMissing bd.devPath), s.store, [])
    ∧ (processAddEvent env bd s).res = .error (.zfsParentMissing bd.devPath)
    ∧ (processAddEvent env bd s).store = s.store
    ∧ (processAddEvent env bd s).trace = [] := by
  have hz : deviceInUseByZFSLocalPV env bd s.cache s.store =
      (.error (.zfsParentMissing bd.devPath), s.store, []) := by
    simp [deviceInUseByZFSLocalPV, hPart, hParent]
  have hm : deviceInUseByMayastor bd = true := by
    simp [deviceInUseByMayastor, hNoUse]
  refine ⟨hz, ?_, ?_, ?_⟩ <;>
    simp [processAddEvent, addBlockDevice, handleUnmanagedDevices, hm, hz]

/-- C9 witness. -/
theorem C9_classifier_requires_parent_witness :
    samplePartition.deviceAttributes.deviceType = blockDeviceTypePartition
    ∧ samplePartition.devUse.inUse = false
    ∧ cacheLookup ([] : Cache) samplePartition.dependentDevices.parent = none
    ∧ (processAddEvent envPathUUID samplePartition ⟨[], []⟩).res =
        .error (.zfsParentMissing samplePartition.devPath) :=
  ⟨by decide, by decide, by decide,
    (C9_classifier_requires_parent envPathUUID samplePartition ⟨[], []⟩
      (by decide) (by decide) (by decide)).2.1⟩

/-! ## C5 -/

/-- A partition in use by Mayastor whose parent is absent from the cache. -/
def mayastorPartition : BlockDevice :=
  { samplePartition with
    devPath := "/dev/sdm1"
    dependentDevices := ⟨"/dev/sdm", [], []⟩
    devUse := ⟨true, .mayastor⟩ }

/-- C5 counterexample: a partition whose parent path is absent from the
hierarchy cache but which is in use by Mayastor is absorbed by the Mayastor
check with a nil error, so the event does NOT return a missing-parent
error, contradicting the claim that such an event always fails. -/
theorem C5_counterexample :
    mayastorPartition.deviceAttributes.deviceType = blockDeviceTypePartition
    ∧ cacheLookup ([] : Cache) mayastorPartition.dependentDevices.parent = none
    ∧ (processAddEvent envPathUUID mayastorPartition ⟨[], []⟩).res = .ok ()
    ∧ (processAddEvent envPathUUID mayastorPartition ⟨[], []⟩).trace = [] := by
  refine ⟨by decide, by decide, by decide, by decide⟩

/-- C5 (amended): for every add event whose device is a partition, whose
parent path is absent from the Hierarchy Cache, and which is not in use by
Mayastor, processing the event returns the missing-parent error and issues
no store mutation. -/
theorem C5_missing_parent_fails (env : Env) (bd : BlockDevice) (s : PEState)
    (hPart : bd.deviceAttributes.deviceType = blockDeviceTypePartition)
    (hParent : cacheLookup s.cache bd.dependentDevices.parent = none)
    (hNotMay : ¬(bd.devUse.inUse = true ∧ bd.devUse.usedBy = DeviceUsedBy.mayastor)) :
    (processAddEvent env bd s).res = .error (.zfsParentMissing bd.devPath)
    ∧ (processAddEvent env bd s).store = s.store
    ∧ (processAddEvent env bd s).trace = [] := by
  have hz : deviceInUseByZFSLocalPV env bd s.cache s.store =
      (.error (.zfsParentMissing bd.devPath), s.store, []) := by
    simp [deviceInUseByZFSLocalPV, hPart, hParent]
  have hm : deviceInUseByMayastor bd = true := by
    by_cases h1 : bd.devUse.inUse = true
    · have h2 : ¬bd.devUse.usedBy = DeviceUsedBy.mayastor := fun h2 => hNotMay ⟨h1, h2⟩
      simp [deviceInUseByMayastor, h1, h2]
    · simp [deviceInUseByMayastor, h1]
  refine ⟨?_, ?_, ?_⟩ <;>
    simp [processAddEvent, addBlockDevice, handleUnmanagedDevices, hm, hz]

/-- C5 witness (for the amended claim). -/
theorem C5_missing_parent_fails_witness :
    samplePartition.deviceAttributes.deviceType = blockDeviceTypePartition
    ∧ cacheLookup ([] : Cache) samplePartition.dependentDevices.parent = none
    ∧ ¬(samplePartition.devUse.inUse = true ∧
        samplePartition.devUse.usedBy = DeviceUsedBy.mayastor)
    ∧ (processAddEvent envPathUUID samplePartition ⟨[], []⟩).store = [] :=
  ⟨by decide, by decide, by decide,
    (C5_missing_parent_fails envPathUUID samplePartition ⟨[], []⟩
      (by decide) (by decide) (by decide)).2.1⟩

/-! ## C1 -/

/-- A disk carrying a holder device, whose resource already exists and is
claimed. -/
def holderDisk : BlockDevice :=
  { sampleDisk with
    devPath := "/dev/sdh"
    dependentDevices := ⟨"", [], ["/dev/dm-0"]⟩ }

/-- The claimed resource stored under `holderDisk`'s derived identifier. -/
def holderDiskClaimedRes : BDResource :=
  { name := "bdev-/dev/sdh"
    claimState := .claimed
    active := true
    annotations := []
    labels := []
    deviceData := sampleDisk }

/-- C1 counterexample: a device with a non-empty holder list whose resource
is found claimed takes the found-claimed update path and issues a store
write, contradicting the claim that no create or update is issued for any
device with holders. -/
theorem C1_counterexample :
    holderDisk.dependentDevices.holders ≠ []
    ∧ ((processAddEvent envPathUUID holderDisk
        ⟨[], [holderDiskClaimedRes]⟩).trace.filter Effect.isStoreWrite).length = 1 := by
  refine ⟨by decide, by decide⟩

/-- C1 (amended): the holder guard covers exactly the creation paths routed
through `createBlockDeviceResourceIfNoHolders` (partition with underivable
or absent parent resource, and the first-seen disk path): for a device with
a non-empty holder list that function issues no call and succeeds without
touching the store.  The found-claimed update, found-unclaimed refresh,
deactivate-parent-then-create, upgrade and ZFS shadow paths are not guarded
by the holder list. -/
theorem C1_holder_guard (bd : BlockDevice) (snapshot store : Store)
    (h : bd.dependentDevices.holders ≠ []) :
    createBlockDeviceResourceIfNoHolders bd snapshot store = (.ok (), store, []) := by
  have hl : bd.dependentDevices.holders.length > 0 := List.length_pos.mpr h
  simp [createBlockDeviceResourceIfNoHolders, hl]

/-- C1 witness (for the amended claim). -/
theorem C1_holder_guard_witness :
    holderDisk.dependentDevices.holders ≠ []
    ∧ createBlockDeviceResourceIfNoHolders holderDisk [] [] = (.ok (), [], []) :=
  ⟨by decide, C1_holder_guard holderDisk [] [] (by decide)⟩

/-! ## C8 -/

/-- C8: in both legacy upgrade paths, when the primary identifier resolves
and a resource exists under it in the snapshot, a non-Unclaimed resource
yields `(true, nil)` with no store mutation and an Unclaimed resource
yields the internal-consistency ("unreachable state") error with no store
mutation. -/
theorem C8_upgrade_gpt_resolved (env : Env) (bd : BlockDevice) (snapshot store : Store)
    (u : String) (ex : BDResource)
    (hGen : env.generateUUID bd = some u)
    (hEx : getExistingBlockDeviceResource snapshot u = some ex) :
    (¬ex.claimState = ClaimState.unclaimed →
      upgradeDeviceInUseByCStor env bd snapshot store = (.ok true, store, [])
      ∧ upgradeDeviceInUseByLocalPV env bd snapshot store = (.ok true, store, []))
    ∧ (ex.claimState = ClaimState.unclaimed →
      upgradeDeviceInUseByCStor env bd snapshot store = (.error .unreachableState, store, [])
      ∧ upgradeDeviceInUseByLocalPV env bd snapshot store =
          (.error .unreachableState, store, [])) := by
  constructor <;> intro h <;> constructor <;>
    simp [upgradeDeviceInUseByCStor, upgradeDeviceInUseByLocalPV, hGen, hEx, h]

/-- C8 witness: a claimed existing resource on the primary identifier. -/
theorem C8_upgrade_gpt_resolved_witness :
    envPathUUID.generateUUID sampleDisk = some "bdev-/dev/sdx"
    ∧ getExistingBlockDeviceResource
        [{ holderDiskClaimedRes with name := "bdev-/dev/sdx" }] "bdev-/dev/sdx" =
        some { holderDiskClaimedRes with name := "bdev-/dev/sdx" }
    ∧ upgradeDeviceInUseByCStor envPathUUID sampleDisk
        [{ holderDiskClaimedRes with name := "bdev-/dev/sdx" }] [] = (.ok true, [], []) :=
  ⟨by decide, by decide,
    ((C8_upgrade_gpt_resolved envPathUUID sampleDisk
      [{ holderDiskClaimedRes with name := "bdev-/dev/sdx" }] [] "bdev-/dev/sdx"
      { holderDiskClaimedRes with name := "bdev-/dev/sdx" }
      (by decide) (by decide)).1 (by decide)).1⟩

/-! ## Reaching generic reconciliation -/

/-- A not-in-use device whose parent (when it is a partition) is cached and
not in use passes the ownership classifier, the parent-in-use check and the
upgrade path unchanged. -/
theorem reachesGeneric (env : Env) (bd : BlockDevice) (s : PEState)
    (hNoUse : bd.devUse.inUse = false)
    (hClass : bd.deviceAttributes.deviceType = blockDeviceTypePartition →
      ∃ p, cacheLookup s.cache bd.dependentDevices.parent = some p ∧ p.devUse.inUse = false) :
    handleUnmanagedDevices env bd s.cache s.store = (.ok true, s.store, [])
    ∧ isParentDeviceInUse bd s.cache = .ok false
    ∧ upgradeBD env bd s.store s.store = (.ok true, s.store, []) := by
  have hm : deviceInUseByMayastor bd = true := by
    simp [deviceInUseByMayastor, hNoUse]
  refine ⟨?_, ?_, ?_⟩
  · by_cases hPart : bd.deviceAttributes.deviceType = blockDeviceTypePartition
    · obtain ⟨p, hp, hpu⟩ := hClass hPart
      simp [handleUnmanagedDevices, hm, deviceInUseByZFSLocalPV, hPart, hp, hpu,
        deviceInUseByZFSLocalPVTail, hNoUse]
    · simp [handleUnmanagedDevices, hm, deviceInUseByZFSLocalPV, hPart,
        deviceInUseByZFSLocalPVTail, hNoUse]
  · by_cases hPart : bd.deviceAttributes.deviceType = blockDeviceTypePartition
    · obtain ⟨p, hp, hpu⟩ := hClass hPart
      simp [isParentDeviceInUse, hPart, hp, hpu]
    · simp [isParentDeviceInUse, hPart]
  · simp [upgradeBD, hNoUse]

/-! ## C7 -/

/-- C7: a disk, not in use, with no derivable primary identifier and no
partitions or holders, reaching generic reconciliation, triggers exactly
one CreateSinglePartition call carrying the device's path, capacity and
logical block size, issues no store mutation, and propagates the
partitioning collaborator's error unchanged (nil on success). -/
theorem C7_create_single_partition (env : Env) (bd : BlockDevice) (s : PEState)
    (hType : bd.deviceAttributes.deviceType = blockDeviceTypeDisk)
    (hNoUse : bd.devUse.inUse = false)
    (hGen : env.generateUUID bd = none)
    (hParts : bd.dependentDevices.partitions = [])
    (hHolders : bd.dependentDevices.holders = []) :
    (processAddEvent env bd s).trace =
      [Effect.createPartitionCall
        ⟨bd.devPath, bd.capacity.storage, bd.deviceAttributes.logicalBlockSize⟩]
    ∧ (processAddEvent env bd s).store = s.store
    ∧ (processAddEvent env bd s).cache = s.cache
    ∧ (∀ e, env.createSinglePartition
        ⟨bd.devPath, bd.capacity.storage, bd.deviceAttributes.logicalBlockSize⟩ = some e →
        (processAddEvent env bd s).res = .error e)
    ∧ (env.createSinglePartition
        ⟨bd.devPath, bd.capacity.storage, bd.deviceAttributes.logicalBlockSize⟩ = none →
        (processAddEvent env bd s).res = .ok ()) := by
  have hPart : ¬bd.deviceAttributes.deviceType = blockDeviceTypePartition := by
    rw [hType]; decide
  obtain ⟨h1, h2, h3⟩ := reachesGeneric env bd s hNoUse (fun h => absurd h hPart)
  have hmain : ∀ P : AddResult → Prop,
      (∀ rr, env.createSinglePartition
        ⟨bd.devPath, bd.capacity.storage, bd.deviceAttributes.logicalBlockSize⟩ = rr →
        P ⟨(match rr with | some e => .error e | none => .ok ()), s.cache, s.store,
          [Effect.createPartitionCall
            ⟨bd.devPath, bd.capacity.storage, bd.deviceAttributes.logicalBlockSize⟩]⟩) →
      P (processAddEvent env bd s) := by
    intro P hP
    simp only [processAddEvent, addBlockDevice, h1, h2, h3, hGen, hParts, hHolders]
    simp only [List.length_nil, gt_iff_lt, lt_self_iff_false, or_self, if_false]
    split
    · next e heq => exact hP (some e) heq
    · next heq => exact hP none heq
  refine ⟨?_, ?_, ?_, ?_, ?_⟩
  · exact hmain (fun r => r.trace = _) (fun rr _ => by cases rr <;> rfl)
  · exact hmain (fun r => r.store = s.store) (fun rr _ => by cases rr <;> rfl)
  · exact hmain (fun r => r.cache = s.cache) (fun rr _ => by cases rr <;> rfl)
  · intro e he
    refine hmain (fun r => r.res = .error e) (fun rr hrr => ?_)
    rw [he] at hrr
    cases hrr
    rfl
  · intro he
    refine hmain (fun r => r.res = .ok ()) (fun rr hrr => ?_)
    rw [he] at hrr
    cases hrr
    rfl

/-- C7 witness. -/
theorem C7_create_single_partition_witness :
    sampleDisk.deviceAttributes.deviceType = blockDeviceTypeDisk
    ∧ sampleDisk.devUse.inUse = false
    ∧ envNoUUID.generateUUID sampleDisk = none
    ∧ (processAddEvent envNoUUID sampleDisk ⟨[], []⟩).trace =
        [Effect.createPartitionCall ⟨"/dev/sdx", 1000000, 512⟩] :=
  ⟨by decide, by decide, by decide,
    (C7_create_single_partition envNoUUID sampleDisk ⟨[], []⟩
      (by decide) (by decide) (by decide) (by decide) (by decide)).1⟩

/-! ## C4 -/

/-- C4 counterexample: an add event for a not-in-use disk with no
derivable primary identifier is fully processed (it reaches and passes the
ownership classifier and ends in the partition-creation branch with a nil
error), yet the hierarchy cache is left without any entry for the device's
path, contradicting the claim that the cache is updated on every event
that reaches the classifier. -/
theorem C4_counterexample :
    (processAddEvent envNoUUID sampleDisk ⟨[], []⟩).res = .ok ()
    ∧ (processAddEvent envNoUUID sampleDisk ⟨[], []⟩).cache = []
    ∧ cacheLookup (processAddEvent envNoUUID sampleDisk ⟨[], []⟩).cache
        sampleDisk.devPath = none := by
  refine ⟨by decide, by decide, by decide⟩

/-- C4 (amended): the hierarchy cache is updated only on events whose
primary identifier derivation succeeds, and the update happens after the
derivation, storing the event's snapshot with the derived identifier
filled in: for every event reaching generic reconciliation whose
derivation yields `u`, the final cache maps the device path to the
snapshot with `uuid := u`; events whose derivation fails leave the cache
unchanged. -/
theorem C4_cache_updated_on_derivation (env : Env) (bd : BlockDevice) (s : PEState)
    (u : String)
    (hNoUse : bd.devUse.inUse = false)
    (hGen : env.generateUUID bd = some u)
    (hClass : bd.deviceAttributes.deviceType = blockDeviceTypePartition →
      ∃ p, cacheLookup s.cache bd.dependentDevices.parent = some p ∧ p.devUse.inUse = false) :
    (processAddEvent env bd s).cache = cacheUpsert s.cache bd.devPath { bd with uuid := u }
    ∧ cacheLookup (processAddEvent env bd s).cache bd.devPath = some { bd with uuid := u } := by
  obtain ⟨h1, h2, h3⟩ := reachesGeneric env bd s hNoUse hClass
  have hc : (processAddEvent env bd s).cache =
      cacheUpsert s.cache bd.devPath { bd with uuid := u } := by
    simp only [processAddEvent, addBlockDevice, h1, h2, h3, hGen,
      addBlockDeviceToHierarchyCache]
    repeat' split
    all_goals rfl
  exact ⟨hc, by rw [hc, cacheLookup_upsert_self]⟩

/-- C4 witness (for the amended claim). -/
theorem C4_cache_updated_on_derivation_witness :
    sampleDisk.devUse.inUse = false
    ∧ envPathUUID.generateUUID sampleDisk = some "bdev-/dev/sdx"
    ∧ cacheLookup (processAddEvent envPathUUID sampleDisk ⟨[], []⟩).cache
        sampleDisk.devPath = some { sampleDisk with uuid := "bdev-/dev/sdx" } :=
  ⟨by decide, by decide,
    (C4_cache_updated_on_derivation envPathUUID sampleDisk ⟨[], []⟩ "bdev-/dev/sdx"
      (by decide) (by decide) (fun h => absurd h (by decide))).2⟩

/-! ## C6 -/

/-- The resource written for a device on the generic (gpt) path. -/
def gptResourceFor (bd : BlockDevice) (u : String) : BDResource :=
  { toDeviceResource { bd with uuid := u } with
    annotations := [(internalUUIDSchemeAnnot, gptUUIDScheme)] }

/-- C6: a partition reaching generic reconciliation whose own identifier
has no store resource, and whose parent's identifier resolves to a store
resource in claim state Unclaimed, makes the engine issue exactly one
Deactivate call on the parent's resource followed by exactly one Create
call for the partition's resource, and the event succeeds. -/
theorem C6_deactivate_parent_create_partition (env : Env) (bd parentBD : BlockDevice)
    (s : PEState) (u pu : String) (pr : BDResource)
    (hPart : bd.deviceAttributes.deviceType = blockDeviceTypePartition)
    (hNoUse : bd.devUse.inUse = false)
    (hParent : cacheLookup s.cache bd.dependentDevices.parent = some parentBD)
    (hPNoUse : parentBD.devUse.inUse = false)
    (hNe : ¬bd.dependentDevices.parent = bd.devPath)
    (hGen : env.generateUUID bd = some u)
    (hNotFound : storeGet s.store u = none)
    (hPGen : env.generateUUID parentBD = some pu)
    (hPr : storeGet s.store pu = some pr)
    (hPrU : pr.claimState = ClaimState.unclaimed) :
    (processAddEvent env bd s).trace =
      [Effect.deactivateBD pr, Effect.createBD (gptResourceFor bd u)]
    ∧ (processAddEvent env bd s).res = .ok ()
    ∧ (processAddEvent env bd s).store =
        storeDeactivate s.store pr ++ [gptResourceFor bd u] := by
  obtain ⟨h1, h2, h3⟩ := reachesGeneric env bd s hNoUse (fun _ => ⟨parentBD, hParent, hPNoUse⟩)
  have hParent' : cacheLookup (cacheUpsert s.cache bd.devPath { bd with uuid := u })
      bd.dependentDevices.parent = some parentBD := by
    rw [cacheLookup_upsert_ne _ _ _ _ hNe]
    exact hParent
  have hexist : getExistingBlockDeviceResource s.store u = none := by
    rw [getExisting_eq_storeGet]; exact hNotFound
  have hco : createOrUpdateWithAnnot [(internalUUIDSchemeAnnot, gptUUIDScheme)]
      { bd with uuid := u } none (storeDeactivate s.store pr) =
      (.ok (), storeDeactivate s.store pr ++ [gptResourceFor bd u],
        [Effect.createBD (gptResourceFor bd u)]) := by
    simp [createOrUpdateWithAnnot, storeCreate, gptResourceFor, toDeviceResource,
      storeGet_storeDeactivate, hNotFound]
  refine ⟨?_, ?_, ?_⟩ <;>
    simp [processAddEvent, addBlockDevice, h1, h2, h3, hGen, addBlockDeviceToHierarchyCache,
      hNotFound, hPart, hParent', hPGen, hPr, hPrU, hexist, hco]

/-- Parent disk resource, unclaimed, for the C6 witness. -/
def parentUnclaimedRes : BDResource :=
  { name := "bdev-/dev/sdx"
    claimState := .unclaimed
    active := true
    annotations := []
    labels := []
    deviceData := sampleDisk }

/-- C6 witness. -/
theorem C6_deactivate_parent_create_partition_witness :
    storeGet [parentUnclaimedRes] "bdev-/dev/sdx1" = none
    ∧ storeGet [parentUnclaimedRes] "bdev-/dev/sdx" = some parentUnclaimedRes
    ∧ (processAddEvent envPathUUID samplePartition
        ⟨[("/dev/sdx", sampleDisk)], [parentUnclaimedRes]⟩).trace =
      [Effect.deactivateBD parentUnclaimedRes,
       Effect.createBD (gptResourceFor samplePartition "bdev-/dev/sdx1")] :=
  ⟨by decide, by decide,
    (C6_deactivate_parent_create_partition envPathUUID samplePartition sampleDisk
      ⟨[("/dev/sdx", sampleDisk)], [parentUnclaimedRes]⟩ "bdev-/dev/sdx1" "bdev-/dev/sdx"
      parentUnclaimedRes (by decide) (by decide) (by decide) (by decide) (by decide)
      (by decide) (by decide) (by decide) (by decide) (by decide)).1⟩

/-! ## Effects layer: what every issued store write looks like -/

/-- Every written resource carries either the gpt scheme annotation, or the
legacy scheme annotation together with its correlation key (whose value is
the written device's fs/partition-table UUID), or — only for a create, on
the ZFS shadow path — no scheme annotation but the consumer tag label. -/
def goodRes (op : Effect) (r : BDResource) : Prop :=
  lookupKV r.annotations internalUUIDSchemeAnnot = some gptUUIDScheme
  ∨ (lookupKV r.annotations internalUUIDSchemeAnnot = some legacyUUIDScheme
     ∧ (lookupKV r.annotations internalFSUUIDAnnot = some r.deviceData.fsInfo.fileSystemUUID
        ∨ lookupKV r.annotations internalPartitionUUIDAnnot =
            some r.deviceData.partitionInfo.partitionTableUUID))
  ∨ (lookupKV r.annotations internalUUIDSchemeAnnot = none
     ∧ lookupKV r.labels blockDeviceTagLabel = some zfsLocalPVString
     ∧ op = Effect.createBD r)

def goodWrite (op : Effect) : Prop := ∀ r, writtenResource op = some r → goodRes op r

def writesGood (trace : List Effect) : Prop := ∀ op ∈ trace, goodWrite op

def deactsUnclaimed (store : Store) (trace : List Effect) : Prop :=
  ∀ t, Effect.deactivateBD t ∈ trace → t.claimState = ClaimState.unclaimed ∧ t ∈ store

def claimedPreserved (s s' : Store) : Prop :=
  ∀ r ∈ s, ¬r.claimState = ClaimState.unclaimed →
    ∃ r' ∈ s', r'.name = r.name ∧ r'.claimState = r.claimState ∧ r'.active = r.active

theorem writesGood_nil : writesGood [] := fun op h => absurd h (List.not_mem_nil op)

theorem writesGood_append {a b : List Effect} (ha : writesGood a) (hb : writesGood b) :
    writesGood (a ++ b) := by
  intro op hop
  rcases List.mem_append.mp hop with h | h
  · exact ha op h
  · exact hb op h

theorem deactsUnclaimed_nil (store : Store) : deactsUnclaimed store [] :=
  fun t h => absurd h (List.not_mem_nil _)

theorem deactsUnclaimed_append {store : Store} {a b : List Effect}
    (ha : deactsUnclaimed store a) (hb : deactsUnclaimed store b) :
    deactsUnclaimed store (a ++ b) := by
  intro t ht
  rcases List.mem_append.mp ht with h | h
  · exact ha t h
  · exact hb t h

theorem deactsUnclaimed_of_no_deact {store : Store} {tr : List Effect}
    (h : ∀ t, Effect.deactivateBD t ∉ tr) : deactsUnclaimed store tr :=
  fun t ht => absurd ht (h t)

theorem claimedPreserved_refl (s : Store) : claimedPreserved s s :=
  fun r hr _ => ⟨r, hr, rfl, rfl, rfl⟩

theorem claimedPreserved_append (s : Store) (l : Store) : claimedPreserved s (s ++ l) :=
  fun r hr _ => ⟨r, List.mem_append_left l hr, rfl, rfl, rfl⟩

theorem claimedPreserved_update (s : Store) (n e : BDResource) :
    claimedPreserved s (storeUpdate s n e) := by
  intro r hr _
  refine ⟨(fun x => if x.name == e.name then mergeUpdate x n else x) r, ?_, ?_, ?_, ?_⟩
  · exact List.mem_map_of_mem _ hr
  · by_cases h : r.name = e.name <;> simp [h, mergeUpdate]
  · by_cases h : r.name = e.name <;> simp [h, mergeUpdate]
  · by_cases h : r.name = e.name <;> simp [h, mergeUpdate]

theorem claimedPreserved_deactivate (s : Store) (t : BDResource)
    (hN : (s.map (fun r => r.name)).Nodup) (ht : t ∈ s)
    (hu : t.claimState = ClaimState.unclaimed) :
    claimedPreserved s (storeDeactivate s t) := by
  intro r hr hc
  have hne : ¬r.name = t.name := by
    intro h
    have := List.inj_on_of_nodup_map hN hr ht h
    rw [this] at hc
    exact hc hu
  refine ⟨r, ?_, rfl, rfl, rfl⟩
  have : (fun x => if x.name == t.name then { x with active := false } else x) r = r := by
    simp [hne]
  rw [← this]
  exact List.mem_map_of_mem _ hr

theorem claimedPreserved_trans {a b c : Store} (hab : claimedPreserved a b)
    (hbc : claimedPreserved b c) : claimedPreserved a c := by
  intro r hr hc
  obtain ⟨r', hr', hn', hc', ha'⟩ := hab r hr hc
  obtain ⟨r'', hr'', hn'', hc'', ha''⟩ := hbc r' hr' (by rw [hc']; exact hc)
  exact ⟨r'', hr'', by rw [hn'', hn'], by rw [hc'', hc'], by rw [ha'', ha']⟩

theorem storeCreate_ok (s : Store) (r : BDResource) (s' : Store)
    (h : storeCreate s r = .ok s') : s' = s ++ [r] := by
  unfold storeCreate at h
  split at h
  · cases h
  · cases h
    rfl

/-- The trace of `createOrUpdateWithAnnot` is one write of the resource
built from `bd` with annotation map `ann`. -/
theorem co_trace (ann : List (String × String)) (bd : BlockDevice)
    (ex : Option BDResource) (store : Store) :
    ∃ op, (createOrUpdateWithAnnot ann bd ex store).2.2 = [op] ∧
      writtenResource op = some { toDeviceResource bd with annotations := ann } := by
  simp only [createOrUpdateWithAnnot]
  cases ex with
  | some e => exact ⟨_, rfl, rfl⟩
  | none =>
    cases h : storeCreate store { toDeviceResource bd with annotations := ann } with
    | error e => exact ⟨_, rfl, rfl⟩
    | ok s' => exact ⟨_, rfl, rfl⟩

theorem co_noDeact (ann : List (String × String)) (bd : BlockDevice)
    (ex : Option BDResource) (store : Store) :
    ∀ t, Effect.deactivateBD t ∉ (createOrUpdateWithAnnot ann bd ex store).2.2 := by
  obtain ⟨op, hop, hw⟩ := co_trace ann bd ex store
  rw [hop]
  intro t ht
  rw [List.mem_singleton] at ht
  rw [← ht] at hw
  simp [writtenResource] at hw

theorem co_preserved (ann : List (String × String)) (bd : BlockDevice)
    (ex : Option BDResource) (store : Store) :
    claimedPreserved store (createOrUpdateWithAnnot ann bd ex store).2.1 := by
  simp only [createOrUpdateWithAnnot]
  cases ex with
  | some e => exact claimedPreserved_update store _ e
  | none =>
    cases h : storeCreate store { toDeviceResource bd with annotations := ann } with
    | error e => exact claimedPreserved_refl store
    | ok s' =>
      rw [storeCreate_ok _ _ _ h]
      exact claimedPreserved_append store _

theorem writesGood_of_res (ann : List (String × String)) (bd : BlockDevice)
    (ex : Option BDResource) (store : Store)
    (h : ∀ op, goodRes op { toDeviceResource bd with annotations := ann }) :
    writesGood (createOrUpdateWithAnnot ann bd ex store).2.2 := by
  obtain ⟨op, hop, hw⟩ := co_trace ann bd ex store
  rw [hop]
  intro o ho r hr
  rw [List.mem_singleton] at ho
  subst ho
  rw [hw] at hr
  injection hr with hr
  rw [← hr]
  exact h _

theorem writesGood_co_gpt (bd : BlockDevice) (ex : Option BDResource) (store : Store) :
    writesGood (createOrUpdateWithAnnot [(internalUUIDSchemeAnnot, gptUUIDScheme)]
      bd ex store).2.2 := by
  apply writesGood_of_res
  intro op
  left
  simp [lookupKV]

theorem writesGood_co_fs (bd : BlockDevice) (ex : Option BDResource) (store : Store) :
    writesGood (createOrUpdateWithFSUUID bd ex store).2.2 := by
  apply writesGood_of_res
  intro op
  right; left
  have h1 : (internalUUIDSchemeAnnot == internalFSUUIDAnnot) = false := by decide
  constructor
  · simp [lookupKV]
  · left
    simp [lookupKV, List.find?, h1, toDeviceResource]

theorem writesGood_co_pt (bd : BlockDevice) (ex : Option BDResource) (store : Store) :
    writesGood (createOrUpdateWithPartitionUUID bd ex store).2.2 := by
  apply writesGood_of_res
  intro op
  right; left
  have h1 : (internalUUIDSchemeAnnot == internalPartitionUUIDAnnot) = false := by decide
  constructor
  · simp [lookupKV]
  · right
    simp [lookupKV, List.find?, h1, toDeviceResource]

theorem goodWrite_of_no_res (op : Effect) (h : writtenResource op = none) : goodWrite op := by
  intro r hr
  rw [h] at hr
  cases hr

theorem writesGood_singleton_deact (t : BDResource) : writesGood [Effect.deactivateBD t] := by
  intro op hop
  rw [List.mem_singleton] at hop
  subst hop
  exact goodWrite_of_no_res _ rfl

theorem writesGood_singleton_part (d : PDisk) : writesGood [Effect.createPartitionCall d] := by
  intro op hop
  rw [List.mem_singleton] at hop
  subst hop
  exact goodWrite_of_no_res _ rfl

theorem zfsTail_effects (env : Env) (bd : BlockDevice) (store : Store) :
    writesGood (deviceInUseByZFSLocalPVTail env bd store).2.2
    ∧ (∀ t, Effect.deactivateBD t ∉ (deviceInUseByZFSLocalPVTail env bd store).2.2)
    ∧ claimedPreserved store (deviceInUseByZFSLocalPVTail env bd store).2.1 := by
  simp only [deviceInUseByZFSLocalPVTail]
  split
  · exact ⟨writesGood_nil, fun t => List.not_mem_nil _, claimedPreserved_refl _⟩
  · split
    · exact ⟨writesGood_nil, fun t => List.not_mem_nil _, claimedPreserved_refl _⟩
    · split
      · exact ⟨writesGood_nil, fun t => List.not_mem_nil _, claimedPreserved_refl _⟩
      · split
        · next heq =>
          refine ⟨?_, ?_, claimedPreserved_refl _⟩
          · intro op hop rr hr
            rw [List.mem_singleton] at hop
            subst hop
            injection hr with hr
            subst hr
            right; right
            exact ⟨by simp [lookupKV, toDeviceResource], by simp [lookupKV, insertKV,
              toDeviceResource], rfl⟩
          · intro t ht
            rw [List.mem_singleton] at ht
            cases ht
        · next s' heq =>
          refine ⟨?_, ?_, ?_⟩
          · intro op hop rr hr
            rw [List.mem_singleton] at hop
            subst hop
            injection hr with hr
            subst hr
            right; right
            exact ⟨by simp [lookupKV, toDeviceResource], by simp [lookupKV, insertKV,
              toDeviceResource], rfl⟩
          · intro t ht
            rw [List.mem_singleton] at ht
            cases ht
          · rw [storeCreate_ok _ _ _ heq]
            exact claimedPreserved_append store _

theorem zfs_effects (env : Env) (bd : BlockDevice) (cache : Cache) (store : Store) :
    writesGood (deviceInUseByZFSLocalPV env bd cache store).2.2
    ∧ (∀ t, Effect.deactivateBD t ∉ (deviceInUseByZFSLocalPV env bd cache store).2.2)
    ∧ claimedPreserved store (deviceInUseByZFSLocalPV env bd cache store).2.1 := by
  simp only [deviceInUseByZFSLocalPV]
  split
  · split
    · exact ⟨writesGood_nil, fun t => List.not_mem_nil _, claimedPreserved_refl _⟩
    · split
      · exact ⟨writesGood_nil, fun t => List.not_mem_nil _, claimedPreserved_refl _⟩
      · exact zfsTail_effects env bd store
  · exact zfsTail_effects env bd store

theorem handleUnmanaged_effects (env : Env) (bd : BlockDevice) (cache : Cache)
    (store : Store) :
    writesGood (handleUnmanagedDevices env bd cache store).2.2
    ∧ (∀ t, Effect.deactivateBD t ∉ (handleUnmanagedDevices env bd cache store).2.2)
    ∧ claimedPreserved store (handleUnmanagedDevices env bd cache store).2.1 := by
  simp only [handleUnmanagedDevices]
  split
  · exact zfs_effects env bd cache store
  · exact ⟨writesGood_nil, fun t => List.not_mem_nil _, claimedPreserved_refl _⟩

theorem upgradeCStorLegacyPart_effects (env : Env) (bd : BlockDevice)
    (snapshot store : Store) :
    writesGood (upgradeCStorLegacyPart env bd snapshot store).2.2
    ∧ (∀ t, Effect.deactivateBD t ∉ (upgradeCStorLegacyPart env bd snapshot store).2.2)
    ∧ claimedPreserved store (upgradeCStorLegacyPart env bd snapshot store).2.1 := by
  simp only [upgradeCStorLegacyPart]
  split
  · exact ⟨writesGood_co_pt _ _ _, co_noDeact _ _ _ _, co_preserved _ _ _ _⟩
  · split
    · exact ⟨writesGood_co_pt _ _ _, co_noDeact _ _ _ _, co_preserved _ _ _ _⟩
    · split
      · exact ⟨writesGood_co_pt _ _ _, co_noDeact _ _ _ _, co_preserved _ _ _ _⟩
      · exact ⟨writesGood_nil, fun t => List.not_mem_nil _, claimedPreserved_refl _⟩

theorem upgradeLocalPVLegacyPart_effects (env : Env) (bd : BlockDevice)
    (snapshot store : Store) :
    writesGood (upgradeLocalPVLegacyPart env bd snapshot store).2.2
    ∧ (∀ t, Effect.deactivateBD t ∉ (upgradeLocalPVLegacyPart env bd snapshot store).2.2)
    ∧ claimedPreserved store (upgradeLocalPVLegacyPart env bd snapshot store).2.1 := by
  simp only [upgradeLocalPVLegacyPart]
  split
  · exact ⟨writesGood_co_fs _ _ _, co_noDeact _ _ _ _, co_preserved _ _ _ _⟩
  · split
    · exact ⟨writesGood_co_fs _ _ _, co_noDeact _ _ _ _, co_preserved _ _ _ _⟩
    · split
      · exact ⟨writesGood_co_fs _ _ _, co_noDeact _ _ _ _, co_preserved _ _ _ _⟩
      · exact ⟨writesGood_nil, fun t => List.not_mem_nil _, claimedPreserved_refl _⟩

theorem upgradeCStor_effects (env : Env) (bd : BlockDevice) (snapshot store : Store) :
    writesGood (upgradeDeviceInUseByCStor env bd snapshot store).2.2
    ∧ (∀ t, Effect.deactivateBD t ∉ (upgradeDeviceInUseByCStor env bd snapshot store).2.2)
    ∧ claimedPreserved store (upgradeDeviceInUseByCStor env bd snapshot store).2.1 := by
  simp only [upgradeDeviceInUseByCStor]
  split
  · split
    · split
      · exact ⟨writesGood_nil, fun t => List.not_mem_nil _, claimedPreserved_refl _⟩
      · exact ⟨writesGood_nil, fun t => List.not_mem_nil _, claimedPreserved_refl _⟩
    · exact upgradeCStorLegacyPart_effects env bd snapshot store
  · exact upgradeCStorLegacyPart_effects env bd snapshot store

theorem upgradeLocalPV_effects (env : Env) (bd : BlockDevice) (snapshot store : Store) :
    writesGood (upgradeDeviceInUseByLocalPV env bd snapshot store).2.2
    ∧ (∀ t, Effect.deactivateBD t ∉ (upgradeDeviceInUseByLocalPV env bd snapshot store).2.2)
    ∧ claimedPreserved store (upgradeDeviceInUseByLocalPV env bd snapshot store).2.1 := by
  simp only [upgradeDeviceInUseByLocalPV]
  split
  · split
    · split
      · exact ⟨writesGood_nil, fun t => List.not_mem_nil _, claimedPreserved_refl _⟩
      · exact ⟨writesGood_nil, fun t => List.not_mem_nil _, claimedPreserved_refl _⟩
    · exact upgradeLocalPVLegacyPart_effects env bd snapshot store
  · exact upgradeLocalPVLegacyPart_effects env bd snapshot store

theorem upgradeBD_effects (env : Env) (bd : BlockDevice) (snapshot store : Store) :
    writesGood (upgradeBD env bd snapshot store).2.2
    ∧ (∀ t, Effect.deactivateBD t ∉ (upgradeBD env bd snapshot store).2.2)
    ∧ claimedPreserved store (upgradeBD env bd snapshot store).2.1 := by
  simp only [upgradeBD]
  split
  · exact ⟨writesGood_nil, fun t => List.not_mem_nil _, claimedPreserved_refl _⟩
  · split
    · exact upgradeLocalPV_effects env bd snapshot store
    · split
      · exact upgradeCStor_effects env bd snapshot store
      · exact ⟨writesGood_nil, fun t => List.not_mem_nil _, claimedPreserved_refl _⟩

theorem createIfNoHolders_effects (bd : BlockDevice) (snapshot store : Store) :
    writesGood (createBlockDeviceResourceIfNoHolders bd snapshot store).2.2
    ∧ (∀ t, Effect.deactivateBD t ∉
        (createBlockDeviceResourceIfNoHolders bd snapshot store).2.2)
    ∧ claimedPreserved store (createBlockDeviceResourceIfNoHolders bd snapshot store).2.1 := by
  simp only [createBlockDeviceResourceIfNoHolders]
  split
  · exact ⟨writesGood_nil, fun t => List.not_mem_nil _, claimedPreserved_refl _⟩
  · exact ⟨writesGood_co_gpt _ _ _, co_noDeact _ _ _ _, co_preserved _ _ _ _⟩

theorem addBlockDevice_effects (env : Env) (bd : BlockDevice) (snapshot : Store)
    (cache : Cache) (store : Store) :
    writesGood (addBlockDevice env bd snapshot cache store).trace
    ∧ deactsUnclaimed store (addBlockDevice env bd snapshot cache store).trace
    ∧ ((store.map (fun r => r.name)).Nodup →
        claimedPreserved store (addBlockDevice env bd snapshot cache store).store) := by
  simp only [addBlockDevice]
  split
  · next e st tr heq =>
    obtain ⟨hw, hd, hp⟩ := handleUnmanaged_effects env bd cache store
    rw [heq] at hw hd hp
    exact ⟨hw, deactsUnclaimed_of_no_deact hd, fun _ => hp⟩
  · next st tr heq =>
    obtain ⟨hw, hd, hp⟩ := handleUnmanaged_effects env bd cache store
    rw [heq] at hw hd hp
    exact ⟨hw, deactsUnclaimed_of_no_deact hd, fun _ => hp⟩
  · next st tr heq =>
    obtain ⟨hst, htr⟩ := handleUnmanagedDevices_true env bd cache store st tr heq
    subst htr
    have hst' := hst.symm
    subst hst'
    split
    · exact ⟨writesGood_nil, deactsUnclaimed_nil _, fun _ => claimedPreserved_refl _⟩
    · exact ⟨writesGood_nil, deactsUnclaimed_nil _, fun _ => claimedPreserved_refl _⟩
    · split
      · next e st2 tr2 hequ =>
        obtain ⟨hw, hd, hp⟩ := upgradeBD_effects env bd snapshot store
        rw [hequ] at hw hd hp
        exact ⟨hw, deactsUnclaimed_of_no_deact hd, fun _ => hp⟩
      · next st2 tr2 hequ =>
        obtain ⟨hw, hd, hp⟩ := upgradeBD_effects env bd snapshot store
        rw [hequ] at hw hd hp
        exact ⟨hw, deactsUnclaimed_of_no_deact hd, fun _ => hp⟩
      · next st2 tr2 hequ =>
        obtain ⟨hst2, htr2⟩ := upgradeBD_true env bd snapshot store st2 tr2 hequ
        subst htr2
        have hst2' := hst2.symm
        subst hst2'
        split
        · split
          · exact ⟨writesGood_nil, deactsUnclaimed_nil _, fun _ => claimedPreserved_refl _⟩
          · split
            · exact ⟨writesGood_singleton_part _,
                deactsUnclaimed_of_no_deact (by
                  intro t ht
                  simp at ht),
                fun _ => claimedPreserved_refl _⟩
            · exact ⟨writesGood_singleton_part _,
                deactsUnclaimed_of_no_deact (by
                  intro t ht
                  simp at ht),
                fun _ => claimedPreserved_refl _⟩
        · next u hequu =>
          split
          · split
            · split
              · exact ⟨writesGood_nil, deactsUnclaimed_nil _, fun _ => claimedPreserved_refl _⟩
              · next parentBD heqp =>
                split
                · obtain ⟨hw, hd, hp⟩ :=
                    createIfNoHolders_effects { bd with uuid := u } snapshot store
                  exact ⟨hw, deactsUnclaimed_of_no_deact hd, fun _ => hp⟩
                · next pu heqpu =>
                  split
                  · obtain ⟨hw, hd, hp⟩ :=
                      createIfNoHolders_effects { bd with uuid := u } snapshot store
                    exact ⟨hw, deactsUnclaimed_of_no_deact hd, fun _ => hp⟩
                  · next pr heqpr =>
                    split
                    · exact ⟨writesGood_nil, deactsUnclaimed_nil _,
                        fun _ => claimedPreserved_refl _⟩
                    · next hclaim =>
                      have hprU : pr.claimState = ClaimState.unclaimed := by
                        simpa using hclaim
                      refine ⟨?_, ?_, ?_⟩
                      · exact writesGood_append (writesGood_singleton_deact pr)
                          (writesGood_co_gpt _ _ _)
                      · refine deactsUnclaimed_append ?_
                          (deactsUnclaimed_of_no_deact (co_noDeact _ _ _ _))
                        intro t ht
                        simp only [List.nil_append, List.mem_singleton] at ht
                        injection ht with ht
                        subst ht
                        exact ⟨hprU, storeGet_mem _ _ _ heqpr⟩
                      · intro hN
                        exact claimedPreserved_trans
                          (claimedPreserved_deactivate store pr hN
                            (storeGet_mem _ _ _ heqpr) hprU)
                          (co_preserved _ _ _ _)
            · split
              · exact ⟨writesGood_nil, deactsUnclaimed_nil _,
                  fun _ => claimedPreserved_refl _⟩
              · obtain ⟨hw, hd, hp⟩ :=
                  createIfNoHolders_effects { bd with uuid := u } snapshot store
                exact ⟨hw, deactsUnclaimed_of_no_deact hd, fun _ => hp⟩
          · next bdAPI heqsg =>
            split
            · exact ⟨writesGood_co_gpt _ _ _,
                deactsUnclaimed_of_no_deact (co_noDeact _ _ _ _),
                fun _ => co_preserved _ _ _ _⟩
            · exact ⟨writesGood_co_gpt _ _ _,
                deactsUnclaimed_of_no_deact (co_noDeact _ _ _ _),
                fun _ => co_preserved _ _ _ _⟩

/-! ## C2 -/

/-- C2: for every resource in the store whose claim state is not Unclaimed,
no path of the add-event handler changes its claim state, deactivates it or
renames it: a resource with the same name, claim state and active flag is
still present in the final store (resources are only updated in place with
refreshed annotations/metadata), and every Deactivate call in the trace
targets a resource whose claim state is Unclaimed.  The store is assumed
well-formed: resource names are unique. -/
theorem C2_claimed_is_sticky (env : Env) (bd : BlockDevice) (s : PEState) (r : BDResource)
    (hN : (s.store.map (fun x => x.name)).Nodup)
    (hr : r ∈ s.store)
    (hc : ¬r.claimState = ClaimState.unclaimed) :
    (∃ r' ∈ (processAddEvent env bd s).store,
      r'.name = r.name ∧ r'.claimState = r.claimState ∧ r'.active = r.active)
    ∧ (∀ t, Effect.deactivateBD t ∈ (processAddEvent env bd s).trace →
        t.claimState = ClaimState.unclaimed) := by
  obtain ⟨hw, hd, hp⟩ := addBlockDevice_effects env bd s.store s.cache s.store
  exact ⟨hp hN r hr hc, fun t ht => (hd t ht).1⟩

/-- C2 witness. -/
theorem C2_claimed_is_sticky_witness :
    (([holderDiskClaimedRes] : Store).map (fun x => x.name)).Nodup
    ∧ holderDiskClaimedRes ∈ ([holderDiskClaimedRes] : Store)
    ∧ ¬holderDiskClaimedRes.claimState = ClaimState.unclaimed
    ∧ (∃ r' ∈ (processAddEvent envPathUUID holderDisk ⟨[], [holderDiskClaimedRes]⟩).store,
        r'.name = holderDiskClaimedRes.name
        ∧ r'.claimState = holderDiskClaimedRes.claimState
        ∧ r'.active = holderDiskClaimedRes.active) :=
  ⟨by decide, by decide, by decide,
    (C2_claimed_is_sticky envPathUUID holderDisk ⟨[], [holderDiskClaimedRes]⟩
      holderDiskClaimedRes (by decide) (by decide) (by decide)).1⟩

/-! ## C10 -/

/-- C10: every write issued through the annotation-overwriting
create-or-update helper sets the written resource's annotation map to
exactly the supplied map, and consequently every store write issued while
processing an add event carries either uuid-scheme=gpt (generic paths), or
uuid-scheme=legacy together with its correlation key holding the written
device's fs/partition-table UUID (upgrade paths), or — only for the
ZFS-localPV shadow-path create — no uuid-scheme annotation but the
consumer tag label. -/
theorem C10_annotation_schemes (env : Env) (bd : BlockDevice) (s : PEState) :
    (∀ (ann : List (String × String)) (b : BlockDevice) (ex : Option BDResource)
        (store : Store) (op : Effect) (r : BDResource),
      op ∈ (createOrUpdateWithAnnot ann b ex store).2.2 →
      writtenResource op = some r → r.annotations = ann)
    ∧ (∀ op ∈ (processAddEvent env bd s).trace, goodWrite op) := by
  constructor
  · intro ann b ex store op r hop hw
    obtain ⟨op', hop', hw'⟩ := co_trace ann b ex store
    rw [hop'] at hop
    rw [List.mem_singleton] at hop
    subst hop
    rw [hw'] at hw
    injection hw with hw
    rw [← hw]
  · exact (addBlockDevice_effects env bd s.store s.cache s.store).1

/-- C10 witness. -/
theorem C10_annotation_schemes_witness :
    Effect.createBD (gptResourceFor sampleDisk "bdev-/dev/sdx") ∈
      (processAddEvent envPathUUID sampleDisk ⟨[], []⟩).trace
    ∧ goodWrite (Effect.createBD (gptResourceFor sampleDisk "bdev-/dev/sdx")) :=
  ⟨by decide,
    (C10_annotation_schemes envPathUUID sampleDisk ⟨[], []⟩).2 _ (by decide)⟩

/-! ## Fixpoint lemmas used by the idempotence proof -/

theorem map_eq_self_of {α : Type} (l : List α) (f : α → α) (h : ∀ x ∈ l, f x = x) :
    l.map f = l := by
  induction l with
  | nil => rfl
  | cons a t ih =>
    rw [List.map_cons, h a (by simp), ih (fun x hx => h x (by simp [hx]))]

theorem storeUpdate_idem_name (s : Store) (n e e' : BDResource) (h : e'.name = e.name) :
    storeUpdate (storeUpdate s n e) n e' = storeUpdate s n e := by
  unfold storeUpdate
  rw [List.map_map]
  apply List.map_congr_left
  intro a _
  by_cases hae : a.name = e.name
  · simp [hae, h, mergeUpdate]
  · simp [hae, h]

theorem storeUpdate_eq_self (s : Store) (n e : BDResource)
    (h : ∀ x ∈ s, x.name = e.name → mergeUpdate x n = x) :
    storeUpdate s n e = s := by
  unfold storeUpdate
  apply map_eq_self_of
  intro x hx
  by_cases hxe : x.name = e.name
  · simp [hxe, h x hx hxe]
  · simp [hxe]

theorem storeGet_append_of_none (s : Store) (r : BDResource) (u : String)
    (h : storeGet s u = none) :
    storeGet (s ++ [r]) u = if r.name == u then some r else none := by
  rw [storeGet_append, h]
  unfold storeGet
  rw [Option.none_or]
  by_cases hr : r.name = u
  · rw [List.find?_cons_of_pos _ (by simp [hr])]
    simp [hr]
  · rw [List.find?_cons_of_neg _ (by simp [hr])]
    simp [hr]

theorem storeCreate_ok_inv (s : Store) (r : BDResource) (s' : Store)
    (h : storeCreate s r = .ok s') : storeGet s r.name = none ∧ s' = s ++ [r] := by
  unfold storeCreate at h
  split at h
  · cases h
  · cases h
    next heq => exact ⟨heq, rfl⟩

/-- Run-two lookups by a correlation-annotation predicate: if run one's
first match (if any) had the updated name, and updated entries always
match, then any run-two first match also has the updated name. -/
theorem find?_map_upd_name (p : BDResource → Bool) (nm : String) (n : BDResource)
    (store : Store)
    (hrun1 : List.find? p store = none ∨ ∃ ex, List.find? p store = some ex ∧ ex.name = nm)
    (hmatch : ∀ x : BDResource, x.name = nm → p (mergeUpdate x n) = true) :
    ∀ y, List.find? p
      (store.map (fun x => if x.name == nm then mergeUpdate x n else x)) = some y →
      y.name = nm := by
  induction store with
  | nil => intro y hy; cases hy
  | cons a t ih =>
    intro y hy
    rw [List.map_cons] at hy
    by_cases hpa : p (if a.name == nm then mergeUpdate a n else a) = true
    · rw [List.find?_cons_of_pos _ hpa] at hy
      injection hy with hy
      subst hy
      by_cases han : a.name = nm
      · simp [han, mergeUpdate]
      · exfalso
        have hpa0 : p a = true := by simpa [han] using hpa
        rcases hrun1 with h1 | ⟨ex, hex, hexn⟩
        · rw [List.find?_eq_none] at h1
          exact absurd hpa0 (h1 a (by simp))
        · rw [List.find?_cons_of_pos _ hpa0] at hex
          injection hex with hex
          rw [← hex] at hexn
          exact absurd hexn han
    · rw [List.find?_cons_of_neg _ hpa] at hy
      refine ih ?_ y hy
      by_cases hpa0 : p a = true
      · exfalso
        by_cases han : a.name = nm
        · exact hpa (by simpa [han] using hmatch a han)
        · exact hpa (by simpa [han] using hpa0)
      · rcases hrun1 with h1 | ⟨ex, hex, hexn⟩
        · left
          rw [List.find?_cons_of_neg _ hpa0] at h1
          exact h1
        · right
          rw [List.find?_cons_of_neg _ hpa0] at hex
          exact ⟨ex, hex, hexn⟩

/-! ## Phase-evaluation lemmas for the idempotence proof -/

theorem zfsTail_true_any (env : Env) (bd : BlockDevice) (store : Store)
    (hTail : ¬(bd.devUse.inUse = true ∧ bd.devUse.usedBy = DeviceUsedBy.zfsLocalPV)) :
    deviceInUseByZFSLocalPVTail env bd store = (.ok true, store, []) := by
  by_cases hIn : bd.devUse.inUse = true
  · have hz : ¬bd.devUse.usedBy = DeviceUsedBy.zfsLocalPV := fun h => hTail ⟨hIn, h⟩
    simp [deviceInUseByZFSLocalPVTail, hIn, hz]
  · rw [Bool.not_eq_true] at hIn
    simp [deviceInUseByZFSLocalPVTail, hIn]

theorem classifier_true_eval (env : Env) (bd : BlockDevice) (cache : Cache) (store : Store)
    (hMay : deviceInUseByMayastor bd = true)
    (hcls : bd.deviceAttributes.deviceType = blockDeviceTypePartition →
      ∃ p0, cacheLookup cache bd.dependentDevices.parent = some p0 ∧
        ¬(p0.devUse.inUse = true ∧ p0.devUse.usedBy = DeviceUsedBy.zfsLocalPV))
    (hTail : ¬(bd.devUse.inUse = true ∧ bd.devUse.usedBy = DeviceUsedBy.zfsLocalPV)) :
    handleUnmanagedDevices env bd cache store = (.ok true, store, []) := by
  have ht := zfsTail_true_any env bd store hTail
  by_cases hPart : bd.deviceAttributes.deviceType = blockDeviceTypePartition
  · obtain ⟨p0, hp0, hpz⟩ := hcls hPart
    simp [handleUnmanagedDevices, hMay, deviceInUseByZFSLocalPV, hPart, hp0, hpz, ht]
  · simp [handleUnmanagedDevices, hMay, deviceInUseByZFSLocalPV, hPart, ht]

theorem hcls_upsert (bd bd' : BlockDevice) (cache : Cache)
    (hTail : ¬(bd'.devUse.inUse = true ∧ bd'.devUse.usedBy = DeviceUsedBy.zfsLocalPV))
    (hcls : bd.deviceAttributes.deviceType = blockDeviceTypePartition →
      ∃ p0, cacheLookup cache bd.dependentDevices.parent = some p0 ∧
        ¬(p0.devUse.inUse = true ∧ p0.devUse.usedBy = DeviceUsedBy.zfsLocalPV)) :
    bd.deviceAttributes.deviceType = blockDeviceTypePartition →
      ∃ p0, cacheLookup (cacheUpsert cache bd.devPath bd')
          bd.dependentDevices.parent = some p0 ∧
        ¬(p0.devUse.inUse = true ∧ p0.devUse.usedBy = DeviceUsedBy.zfsLocalPV) := by
  intro hPart
  by_cases hNe : bd.dependentDevices.parent = bd.devPath
  · refine ⟨bd', ?_, hTail⟩
    rw [hNe, cacheLookup_upsert_self]
  · obtain ⟨p0, hp0, hpz⟩ := hcls hPart
    exact ⟨p0, by rw [cacheLookup_upsert_ne _ _ _ _ hNe]; exact hp0, hpz⟩

theorem upgradeBD_easy (env : Env) (bd : BlockDevice)
    (h : bd.devUse.inUse = false ∨
      (¬bd.devUse.usedBy = DeviceUsedBy.localPV ∧ ¬bd.devUse.usedBy = DeviceUsedBy.cstor)) :
    ∀ snapshot store, upgradeBD env bd snapshot store = (.ok true, store, []) := by
  intro snapshot store
  rcases h with h | ⟨h1, h2⟩
  · simp [upgradeBD, h]
  · by_cases hIn : bd.devUse.inUse = true
    · simp [upgradeBD, hIn, h1, h2]
    · rw [Bool.not_eq_true] at hIn
      simp [upgradeBD, hIn]

theorem upgradeBD_gpt_claimed (env : Env) (bd : BlockDevice) (snapshot store : Store)
    (U : String) (r : BDResource)
    (hU : env.generateUUID bd = some U)
    (hEx : getExistingBlockDeviceResource snapshot U = some r)
    (hC : ¬r.claimState = ClaimState.unclaimed) :
    upgradeBD env bd snapshot store = (.ok true, store, []) := by
  by_cases hIn : bd.devUse.inUse = true
  · by_cases h1 : bd.devUse.usedBy = DeviceUsedBy.localPV
    · simp [upgradeBD, hIn, h1, upgradeDeviceInUseByLocalPV, hU, hEx, hC]
    · by_cases h2 : bd.devUse.usedBy = DeviceUsedBy.cstor
      · simp [upgradeBD, hIn, h1, h2, upgradeDeviceInUseByCStor, hU, hEx, hC]
      · simp [upgradeBD, hIn, h1, h2]
  · rw [Bool.not_eq_true] at hIn
    simp [upgradeBD, hIn]

theorem idem_of_noop (env : Env) (bd : BlockDevice) (s : PEState)
    (h : afterState (processAddEvent env bd s) = s) :
    (processAddEvent env bd (afterState (processAddEvent env bd s))).store
      = (processAddEvent env bd s).store := by
  rw [h]

/-! ## Leaf evaluations of the add handler, used by the idempotence proof -/

theorem createIf_noop (b : BlockDevice) (snapshot store : Store)
    (hH : b.dependentDevices.holders.length > 0) :
    createBlockDeviceResourceIfNoHolders b snapshot store = (.ok (), store, []) := by
  simp [createBlockDeviceResourceIfNoHolders, hH]

theorem createIf_create (b : BlockDevice) (store : Store)
    (hH : b.dependentDevices.holders.length = 0)
    (hSG : storeGet store b.uuid = none) :
    createBlockDeviceResourceIfNoHolders b store store =
      (.ok (), store ++ [{ toDeviceResource b with
          annotations := [(internalUUIDSchemeAnnot, gptUUIDScheme)] }],
       [Effect.createBD { toDeviceResource b with
          annotations := [(internalUUIDSchemeAnnot, gptUUIDScheme)] }]) := by
  simp [createBlockDeviceResourceIfNoHolders, hH, getExisting_eq_storeGet, hSG,
    createOrUpdateWithAnnot, storeCreate, toDeviceResource]

theorem addBD_absorb_isParent (env : Env) (bd : BlockDevice) (s : PEState)
    (h1 : handleUnmanagedDevices env bd s.cache s.store = (.ok true, s.store, []))
    (hIP : isParentDeviceInUse bd s.cache = .ok true) :
    processAddEvent env bd s = ⟨.ok (), s.cache, s.store, []⟩ := by
  simp [processAddEvent, addBlockDevice, h1, hIP]

theorem addBD_found_eval (env : Env) (bd : BlockDevice) (s : PEState) (U : String)
    (bdAPI : BDResource)
    (h1 : handleUnmanagedDevices env bd s.cache s.store = (.ok true, s.store, []))
    (hIP : isParentDeviceInUse bd s.cache = .ok false)
    (h3 : upgradeBD env bd s.store s.store = (.ok true, s.store, []))
    (hU : env.generateUUID bd = some U)
    (hSG : storeGet s.store U = some bdAPI) :
    processAddEvent env bd s =
      ⟨.ok (), cacheUpsert s.cache bd.devPath { bd with uuid := U },
        storeUpdate s.store (gptResourceFor bd U) bdAPI,
        [Effect.updateBD (gptResourceFor bd U) bdAPI]⟩ := by
  by_cases hC : bdAPI.claimState = ClaimState.unclaimed
  · simp [processAddEvent, addBlockDevice, h1, hIP, h3, hU, hSG, hC,
      addBlockDeviceToHierarchyCache, getExisting_eq_storeGet, createOrUpdateWithAnnot,
      gptResourceFor]
  · simp [processAddEvent, addBlockDevice, h1, hIP, h3, hU, hSG, hC,
      addBlockDeviceToHierarchyCache, createOrUpdateWithAnnot, gptResourceFor]

theorem addBD_nf_disk_parts_eval (env : Env) (bd : BlockDevice) (s : PEState) (U : String)
    (h1 : handleUnmanagedDevices env bd s.cache s.store = (.ok true, s.store, []))
    (hIP : isParentDeviceInUse bd s.cache = .ok false)
    (h3 : upgradeBD env bd s.store s.store = (.ok true, s.store, []))
    (hU : env.generateUUID bd = some U)
    (hSG : storeGet s.store U = none)
    (hPart : ¬bd.deviceAttributes.deviceType = blockDeviceTypePartition)
    (hparts : bd.dependentDevices.partitions.length > 0) :
    processAddEvent env bd s =
      ⟨.ok (), cacheUpsert s.cache bd.devPath { bd with uuid := U }, s.store, []⟩ := by
  simp [processAddEvent, addBlockDevice, h1, hIP, h3, hU, hSG, hPart, hparts,
    addBlockDeviceToHierarchyCache]

theorem addBD_nf_disk_create_eval (env : Env) (bd : BlockDevice) (s : PEState) (U : String)
    (h1 : handleUnmanagedDevices env bd s.cache s.store = (.ok true, s.store, []))
    (hIP : isParentDeviceInUse bd s.cache = .ok false)
    (h3 : upgradeBD env bd s.store s.store = (.ok true, s.store, []))
    (hU : env.generateUUID bd = some U)
    (hSG : storeGet s.store U = none)
    (hPart : ¬bd.deviceAttributes.deviceType = blockDeviceTypePartition)
    (hparts : bd.dependentDevices.partitions.length = 0) :
    processAddEvent env bd s =
      ⟨(createBlockDeviceResourceIfNoHolders { bd with uuid := U } s.store s.store).1,
        cacheUpsert s.cache bd.devPath { bd with uuid := U },
        (createBlockDeviceResourceIfNoHolders { bd with uuid := U } s.store s.store).2.1,
        (createBlockDeviceResourceIfNoHolders { bd with uuid := U } s.store s.store).2.2⟩ := by
  simp [processAddEvent, addBlockDevice, h1, hIP, h3, hU, hSG, hPart, hparts,
    addBlockDeviceToHierarchyCache]

theorem addBD_nf_part_missing_eval (env : Env) (bd : BlockDevice) (s : PEState) (U : String)
    (h1 : handleUnmanagedDevices env bd s.cache s.store = (.ok true, s.store, []))
    (hIP : isParentDeviceInUse bd s.cache = .ok false)
    (h3 : upgradeBD env bd s.store s.store = (.ok true, s.store, []))
    (hU : env.generateUUID bd = some U)
    (hSG : storeGet s.store U = none)
    (hPart : bd.deviceAttributes.deviceType = blockDeviceTypePartition)
    (hPB : cacheLookup (cacheUpsert s.cache bd.devPath { bd with uuid := U })
      bd.dependentDevices.parent = none) :
    processAddEvent env bd s =
      ⟨.error (.cannotGetParent bd.devPath),
        cacheUpsert s.cache bd.devPath { bd with uuid := U }, s.store, []⟩ := by
  simp [processAddEvent, addBlockDevice, h1, hIP, h3, hU, hSG, hPart, hPB,
    addBlockDeviceToHierarchyCache]

theorem addBD_nf_part_pgen_none_eval (env : Env) (bd : BlockDevice) (s : PEState)
    (U : String) (parentBD : BlockDevice)
    (h1 : handleUnmanagedDevices env bd s.cache s.store = (.ok true, s.store, []))
    (hIP : isParentDeviceInUse bd s.cache = .ok false)
    (h3 : upgradeBD env bd s.store s.store = (.ok true, s.store, []))
    (hU : env.generateUUID bd = some U)
    (hSG : storeGet s.store U = none)
    (hPart : bd.deviceAttributes.deviceType = blockDeviceTypePartition)
    (hPB : cacheLookup (cacheUpsert s.cache bd.devPath { bd with uuid := U })
      bd.dependentDevices.parent = some parentBD)
    (hPGen : env.generateUUID parentBD = none) :
    processAddEvent env bd s =
      ⟨(createBlockDeviceResourceIfNoHolders { bd with uuid := U } s.store s.store).1,
        cacheUpsert s.cache bd.devPath { bd with uuid := U },
        (createBlockDeviceResourceIfNoHolders { bd with uuid := U } s.store s.store).2.1,
        (createBlockDeviceResourceIfNoHolders { bd with uuid := U } s.store s.store).2.2⟩ := by
  simp [processAddEvent, addBlockDevice, h1, hIP, h3, hU, hSG, hPart, hPB, hPGen,
    addBlockDeviceToHierarchyCache]

theorem addBD_nf_part_pnf_eval (env : Env) (bd : BlockDevice) (s : PEState)
    (U PU : String) (parentBD : BlockDevice)
    (h1 : handleUnmanagedDevices env bd s.cache s.store = (.ok true, s.store, []))
    (hIP : isParentDeviceInUse bd s.cache = .ok false)
    (h3 : upgradeBD env bd s.store s.store = (.ok true, s.store, []))
    (hU : env.generateUUID bd = some U)
    (hSG : storeGet s.store U = none)
    (hPart : bd.deviceAttributes.deviceType = blockDeviceTypePartition)
    (hPB : cacheLookup (cacheUpsert s.cache bd.devPath { bd with uuid := U })
      bd.dependentDevices.parent = some parentBD)
    (hPGen : env.generateUUID parentBD = some PU)
    (hPPr : storeGet s.store PU = none) :
    processAddEvent env bd s =
      ⟨(createBlockDeviceResourceIfNoHolders { bd with uuid := U } s.store s.store).1,
        cacheUpsert s.cache bd.devPath { bd with uuid := U },
        (createBlockDeviceResourceIfNoHolders { bd with uuid := U } s.store s.store).2.1,
        (createBlockDeviceResourceIfNoHolders { bd with uuid := U } s.store s.store).2.2⟩ := by
  simp [processAddEvent, addBlockDevice, h1, hIP, h3, hU, hSG, hPart, hPB, hPGen, hPPr,
    addBlockDeviceToHierarchyCache]

theorem addBD_nf_part_pclaimed_eval (env : Env) (bd : BlockDevice) (s : PEState)
    (U PU : String) (parentBD : BlockDevice) (pr : BDResource)
    (h1 : handleUnmanagedDevices env bd s.cache s.store = (.ok true, s.store, []))
    (hIP : isParentDeviceInUse bd s.cache = .ok false)
    (h3 : upgradeBD env bd s.store s.store = (.ok true, s.store, []))
    (hU : env.generateUUID bd = some U)
    (hSG : storeGet s.store U = none)
    (hPart : bd.deviceAttributes.deviceType = blockDeviceTypePartition)
    (hPB : cacheLookup (cacheUpsert s.cache bd.devPath { bd with uuid := U })
      bd.dependentDevices.parent = some parentBD)
    (hPGen : env.generateUUID parentBD = some PU)
    (hPPr : storeGet s.store PU = some pr)
    (hprC : ¬pr.claimState = ClaimState.unclaimed) :
    processAddEvent env bd s =
      ⟨.ok (), cacheUpsert s.cache bd.devPath { bd with uuid := U }, s.store, []⟩ := by
  simp [processAddEvent, addBlockDevice, h1, hIP, h3, hU, hSG, hPart, hPB, hPGen, hPPr,
    hprC, addBlockDeviceToHierarchyCache]

theorem addBD_nf_part_deact_eval (env : Env) (bd : BlockDevice) (s : PEState)
    (U PU : String) (parentBD : BlockDevice) (pr : BDResource)
    (h1 : handleUnmanagedDevices env bd s.cache s.store = (.ok true, s.store, []))
    (hIP : isParentDeviceInUse bd s.cache = .ok false)
    (h3 : upgradeBD env bd s.store s.store = (.ok true, s.store, []))
    (hU : env.generateUUID bd = some U)
    (hSG : storeGet s.store U = none)
    (hPart : bd.deviceAttributes.deviceType = blockDeviceTypePartition)
    (hPB : cacheLookup (cacheUpsert s.cache bd.devPath { bd with uuid := U })
      bd.dependentDevices.parent = some parentBD)
    (hPGen : env.generateUUID parentBD = some PU)
    (hPPr : storeGet s.store PU = some pr)
    (hprU : pr.claimState = ClaimState.unclaimed) :
    processAddEvent env bd s =
      ⟨.ok (), cacheUpsert s.cache bd.devPath { bd with uuid := U },
        storeDeactivate s.store pr ++ [gptResourceFor bd U],
        [Effect.deactivateBD pr, Effect.createBD (gptResourceFor bd U)]⟩ := by
  have hco : createOrUpdateWithAnnot [(internalUUIDSchemeAnnot, gptUUIDScheme)]
      { bd with uuid := U } none (storeDeactivate s.store pr) =
      (.ok (), storeDeactivate s.store pr ++ [gptResourceFor bd U],
        [Effect.createBD (gptResourceFor bd U)]) := by
    simp [createOrUpdateWithAnnot, storeCreate, gptResourceFor, toDeviceResource,
      storeGet_storeDeactivate, hSG]
  simp [processAddEvent, addBlockDevice, h1, hIP, h3, hU, hSG, hPart, hPB, hPGen, hPPr,
    hprU, addBlockDeviceToHierarchyCache, getExisting_eq_storeGet, hco]

/-! ## Idempotence: the generic reconciliation phase -/

theorem storeGet_none_names (s : Store) (u : String) (h : storeGet s u = none) :
    ∀ x ∈ s, ¬x.name = u := (storeGet_eq_none_iff s u).mp h

theorem storeDeactivate_mem_name (s : Store) (t x : BDResource)
    (hx : x ∈ storeDeactivate s t) : ∃ y ∈ s, x.name = y.name := by
  unfold storeDeactivate at hx
  obtain ⟨y, hy, hxy⟩ := List.mem_map.mp hx
  refine ⟨y, hy, ?_⟩
  rw [← hxy]
  by_cases h : y.name = t.name <;> simp [h]

theorem isParent_upsert_cases (bd bd' : BlockDevice) (cache : Cache)
    (hcls2 : bd.deviceAttributes.deviceType = blockDeviceTypePartition →
      ∃ p0, cacheLookup cache bd.dependentDevices.parent = some p0 ∧
        p0.devUse.inUse = false) :
    isParentDeviceInUse bd (cacheUpsert cache bd.devPath bd') = .ok false
    ∨ isParentDeviceInUse bd (cacheUpsert cache bd.devPath bd') = .ok true := by
  by_cases hPart : bd.deviceAttributes.deviceType = blockDeviceTypePartition
  · by_cases hNe : bd.dependentDevices.parent = bd.devPath
    · cases hb : bd'.devUse.inUse
      · left
        simp [isParentDeviceInUse, hPart, hNe, cacheLookup_upsert_self, hb]
      · right
        simp [isParentDeviceInUse, hPart, hNe, cacheLookup_upsert_self, hb]
    · obtain ⟨p0, hp0, hpin⟩ := hcls2 hPart
      left
      simp [isParentDeviceInUse, hPart, cacheLookup_upsert_ne _ _ _ _ hNe, hp0, hpin]
  · left
    simp [isParentDeviceInUse, hPart]

theorem idem_found_leaf (env : Env) (bd : BlockDevice) (s : PEState) (U : String)
    (bdAPI : BDResource)
    (hMay : deviceInUseByMayastor bd = true)
    (hTail : ¬(bd.devUse.inUse = true ∧ bd.devUse.usedBy = DeviceUsedBy.zfsLocalPV))
    (hcls : bd.deviceAttributes.deviceType = blockDeviceTypePartition →
      ∃ p0, cacheLookup s.cache bd.dependentDevices.parent = some p0 ∧
        ¬(p0.devUse.inUse = true ∧ p0.devUse.usedBy = DeviceUsedBy.zfsLocalPV))
    (hcls2 : bd.deviceAttributes.deviceType = blockDeviceTypePartition →
      ∃ p0, cacheLookup s.cache bd.dependentDevices.parent = some p0 ∧
        p0.devUse.inUse = false)
    (h1 : handleUnmanagedDevices env bd s.cache s.store = (.ok true, s.store, []))
    (hIP : isParentDeviceInUse bd s.cache = .ok false)
    (h3 : upgradeBD env bd s.store s.store = (.ok true, s.store, []))
    (h3' : upgradeBD env bd
        (storeUpdate s.store (gptResourceFor bd U) bdAPI)
        (storeUpdate s.store (gptResourceFor bd U) bdAPI) =
        (.ok true, storeUpdate s.store (gptResourceFor bd U) bdAPI, []))
    (hU : env.generateUUID bd = some U)
    (hSG : storeGet s.store U = some bdAPI) :
    (processAddEvent env bd (afterState (processAddEvent env bd s))).store
      = (processAddEvent env bd s).store := by
  have hrun1 := addBD_found_eval env bd s U bdAPI h1 hIP h3 hU hSG
  rw [hrun1]
  simp only [afterState]
  have hSG1 : storeGet (storeUpdate s.store (gptResourceFor bd U) bdAPI) U =
      some (mergeUpdate bdAPI (gptResourceFor bd U)) := by
    rw [storeGet_storeUpdate, hSG]
    simp
  have h1' : handleUnmanagedDevices env bd
      (cacheUpsert s.cache bd.devPath { bd with uuid := U })
      (storeUpdate s.store (gptResourceFor bd U) bdAPI) =
      (.ok true, storeUpdate s.store (gptResourceFor bd U) bdAPI, []) :=
    classifier_true_eval env bd _ _ hMay
      (hcls_upsert bd { bd with uuid := U } s.cache hTail hcls) hTail
  rcases isParent_upsert_cases bd { bd with uuid := U } s.cache hcls2 with hIP' | hIP'
  · have hrun2 := addBD_found_eval env bd
      ⟨cacheUpsert s.cache bd.devPath { bd with uuid := U },
       storeUpdate s.store (gptResourceFor bd U) bdAPI⟩ U
      (mergeUpdate bdAPI (gptResourceFor bd U)) h1' hIP' h3' hU hSG1
    rw [hrun2]
    exact storeUpdate_idem_name s.store (gptResourceFor bd U) bdAPI _ (mergeUpdate_name _ _)
  · have hrun2 := addBD_absorb_isParent env bd
      ⟨cacheUpsert s.cache bd.devPath { bd with uuid := U },
       storeUpdate s.store (gptResourceFor bd U) bdAPI⟩ h1' hIP'
    rw [hrun2]

theorem gptResourceFor_name (bd : BlockDevice) (U : String) :
    (gptResourceFor bd U).name = U := rfl

theorem idem_after_create (env : Env) (bd : BlockDevice) (s : PEState) (U : String)
    (hMay : deviceInUseByMayastor bd = true)
    (hTail : ¬(bd.devUse.inUse = true ∧ bd.devUse.usedBy = DeviceUsedBy.zfsLocalPV))
    (hcls : bd.deviceAttributes.deviceType = blockDeviceTypePartition →
      ∃ p0, cacheLookup s.cache bd.dependentDevices.parent = some p0 ∧
        ¬(p0.devUse.inUse = true ∧ p0.devUse.usedBy = DeviceUsedBy.zfsLocalPV))
    (hcls2 : bd.deviceAttributes.deviceType = blockDeviceTypePartition →
      ∃ p0, cacheLookup s.cache bd.dependentDevices.parent = some p0 ∧
        p0.devUse.inUse = false)
    (hUp1 : upgradeBD env bd (s.store ++ [gptResourceFor bd U])
        (s.store ++ [gptResourceFor bd U]) =
        (.ok true, s.store ++ [gptResourceFor bd U], []))
    (hU : env.generateUUID bd = some U)
    (hSG : storeGet s.store U = none) :
    (processAddEvent env bd
      ⟨cacheUpsert s.cache bd.devPath { bd with uuid := U },
       s.store ++ [gptResourceFor bd U]⟩).store = s.store ++ [gptResourceFor bd U] := by
  have hSG1 : storeGet (s.store ++ [gptResourceFor bd U]) U = some (gptResourceFor bd U) := by
    rw [storeGet_append_of_none _ _ _ hSG]
    simp [gptResourceFor_name]
  have h1' : handleUnmanagedDevices env bd
      (cacheUpsert s.cache bd.devPath { bd with uuid := U })
      (s.store ++ [gptResourceFor bd U]) =
      (.ok true, s.store ++ [gptResourceFor bd U], []) :=
    classifier_true_eval env bd _ _ hMay
      (hcls_upsert bd { bd with uuid := U } s.cache hTail hcls) hTail
  rcases isParent_upsert_cases bd { bd with uuid := U } s.cache hcls2 with hIP' | hIP'
  · have hrun2 := addBD_found_eval env bd
      ⟨cacheUpsert s.cache bd.devPath { bd with uuid := U },
       s.store ++ [gptResourceFor bd U]⟩ U (gptResourceFor bd U) h1' hIP' hUp1 hU hSG1
    rw [hrun2]
    apply storeUpdate_eq_self
    intro x hx hxn
    rcases List.mem_append.mp hx with hx | hx
    · exact absurd (hxn.trans (gptResourceFor_name bd U)) (storeGet_none_names _ _ hSG x hx)
    · rw [List.mem_singleton] at hx
      subst hx
      exact mergeUpdate_self _
  · have hrun2 := addBD_absorb_isParent env bd
      ⟨cacheUpsert s.cache bd.devPath { bd with uuid := U },
       s.store ++ [gptResourceFor bd U]⟩ h1' hIP'
    rw [hrun2]

theorem idem_deact_leaf (env : Env) (bd : BlockDevice) (s : PEState) (U PU : String)
    (parentBD : BlockDevice) (pr : BDResource)
    (hMay : deviceInUseByMayastor bd = true)
    (hTail : ¬(bd.devUse.inUse = true ∧ bd.devUse.usedBy = DeviceUsedBy.zfsLocalPV))
    (hcls : bd.deviceAttributes.deviceType = blockDeviceTypePartition →
      ∃ p0, cacheLookup s.cache bd.dependentDevices.parent = some p0 ∧
        ¬(p0.devUse.inUse = true ∧ p0.devUse.usedBy = DeviceUsedBy.zfsLocalPV))
    (hcls2 : bd.deviceAttributes.deviceType = blockDeviceTypePartition →
      ∃ p0, cacheLookup s.cache bd.dependentDevices.parent = some p0 ∧
        p0.devUse.inUse = false)
    (h1 : handleUnmanagedDevices env bd s.cache s.store = (.ok true, s.store, []))
    (hIP : isParentDeviceInUse bd s.cache = .ok false)
    (h3 : upgradeBD env bd s.store s.store = (.ok true, s.store, []))
    (hUp1 : upgradeBD env bd (storeDeactivate s.store pr ++ [gptResourceFor bd U])
        (storeDeactivate s.store pr ++ [gptResourceFor bd U]) =
        (.ok true, storeDeactivate s.store pr ++ [gptResourceFor bd U], []))
    (hU : env.generateUUID bd = some U)
    (hSG : storeGet s.store U = none)
    (hPart : bd.deviceAttributes.deviceType = blockDeviceTypePartition)
    (hPB : cacheLookup (cacheUpsert s.cache bd.devPath { bd with uuid := U })
      bd.dependentDevices.parent = some parentBD)
    (hPGen : env.generateUUID parentBD = some PU)
    (hPPr : storeGet s.store PU = some pr)
    (hprU : pr.claimState = ClaimState.unclaimed) :
    (processAddEvent env bd (afterState (processAddEvent env bd s))).store
      = (processAddEvent env bd s).store := by
  have hrun1 := addBD_nf_part_deact_eval env bd s U PU parentBD pr h1 hIP h3 hU hSG hPart
    hPB hPGen hPPr hprU
  rw [hrun1]
  simp only [afterState]
  have hSGd : storeGet (storeDeactivate s.store pr) U = none := by
    rw [storeGet_storeDeactivate, hSG]
    rfl
  have hSG1 : storeGet (storeDeactivate s.store pr ++ [gptResourceFor bd U]) U =
      some (gptResourceFor bd U) := by
    rw [storeGet_append_of_none _ _ _ hSGd]
    simp [gptResourceFor_name]
  have h1' : handleUnmanagedDevices env bd
      (cacheUpsert s.cache bd.devPath { bd with uuid := U })
      (storeDeactivate s.store pr ++ [gptResourceFor bd U]) =
      (.ok true, storeDeactivate s.store pr ++ [gptResourceFor bd U], []) :=
    classifier_true_eval env bd _ _ hMay
      (hcls_upsert bd { bd with uuid := U } s.cache hTail hcls) hTail
  rcases isParent_upsert_cases bd { bd with uuid := U } s.cache hcls2 with hIP' | hIP'
  · have hrun2 := addBD_found_eval env bd
      ⟨cacheUpsert s.cache bd.devPath { bd with uuid := U },
       storeDeactivate s.store pr ++ [gptResourceFor bd U]⟩ U (gptResourceFor bd U)
      h1' hIP' hUp1 hU hSG1
    rw [hrun2]
    apply storeUpdate_eq_self
    intro x hx hxn
    rcases List.mem_append.mp hx with hx | hx
    · obtain ⟨y, hy, hxy⟩ := storeDeactivate_mem_name s.store pr x hx
      exact absurd (hxy.symm.trans (hxn.trans (gptResourceFor_name bd U)))
        (storeGet_none_names _ _ hSG y hy)
    · rw [List.mem_singleton] at hx
      subst hx
      exact mergeUpdate_self _
  · have hrun2 := addBD_absorb_isParent env bd
      ⟨cacheUpsert s.cache bd.devPath { bd with uuid := U },
       storeDeactivate s.store pr ++ [gptResourceFor bd U]⟩ h1' hIP'
    rw [hrun2]

theorem isParent_nonpart (bd : BlockDevice) (c : Cache)
    (hPart : ¬bd.deviceAttributes.deviceType = blockDeviceTypePartition) :
    isParentDeviceInUse bd c = .ok false := by
  simp [isParentDeviceInUse, hPart]

theorem idem_generic (env : Env) (bd : BlockDevice) (s : PEState)
    (hMay : deviceInUseByMayastor bd = true)
    (hTail : ¬(bd.devUse.inUse = true ∧ bd.devUse.usedBy = DeviceUsedBy.zfsLocalPV))
    (hcls2 : bd.deviceAttributes.deviceType = blockDeviceTypePartition →
      ∃ p0, cacheLookup s.cache bd.dependentDevices.parent = some p0 ∧
        p0.devUse.inUse = false)
    (hUp : ∀ snapshot store, upgradeBD env bd snapshot store = (.ok true, store, [])) :
    (processAddEvent env bd (afterState (processAddEvent env bd s))).store
      = (processAddEvent env bd s).store := by
  have hcls : bd.deviceAttributes.deviceType = blockDeviceTypePartition →
      ∃ p0, cacheLookup s.cache bd.dependentDevices.parent = some p0 ∧
        ¬(p0.devUse.inUse = true ∧ p0.devUse.usedBy = DeviceUsedBy.zfsLocalPV) := by
    intro hPart
    obtain ⟨p0, hp0, hpin⟩ := hcls2 hPart
    exact ⟨p0, hp0, fun hx => by simp [hpin] at hx⟩
  have h1 := classifier_true_eval env bd s.cache s.store hMay hcls hTail
  have hIP : isParentDeviceInUse bd s.cache = .ok false := by
    by_cases hPart : bd.deviceAttributes.deviceType = blockDeviceTypePartition
    · obtain ⟨p0, hp0, hpin⟩ := hcls2 hPart
      simp [isParentDeviceInUse, hPart, hp0, hpin]
    · simp [isParentDeviceInUse, hPart]
  have h3 := hUp s.store s.store
  rcases hU : env.generateUUID bd with _ | U
  · apply idem_of_noop
    simp only [processAddEvent, addBlockDevice, h1, hIP, h3, hU]
    split
    · rfl
    · split <;> rfl
  · rcases hSG : storeGet s.store U with _ | bdAPI
    · by_cases hPart : bd.deviceAttributes.deviceType = blockDeviceTypePartition
      · rcases hPB : cacheLookup (cacheUpsert s.cache bd.devPath { bd with uuid := U })
            bd.dependentDevices.parent with _ | parentBD
        · obtain ⟨p0, hp0, _⟩ :=
            hcls_upsert bd { bd with uuid := U } s.cache hTail hcls hPart
          rw [hPB] at hp0
          cases hp0
        · rcases hPGen : env.generateUUID parentBD with _ | PU
          · -- route: parent identifier underivable, createIfNoHolders
            have hrun1 := addBD_nf_part_pgen_none_eval env bd s U parentBD h1 hIP h3 hU
              hSG hPart hPB hPGen
            by_cases hH : bd.dependentDevices.holders.length > 0
            · rw [createIf_noop { bd with uuid := U } s.store s.store hH] at hrun1
              rw [hrun1]
              simp only [afterState]
              have h1' := classifier_true_eval env bd
                (cacheUpsert s.cache bd.devPath { bd with uuid := U }) s.store hMay
                (hcls_upsert bd { bd with uuid := U } s.cache hTail hcls) hTail
              rcases isParent_upsert_cases bd { bd with uuid := U } s.cache hcls2
                with hIP' | hIP'
              · have hPB' : cacheLookup (cacheUpsert
                    (cacheUpsert s.cache bd.devPath { bd with uuid := U }) bd.devPath
                    { bd with uuid := U }) bd.dependentDevices.parent = some parentBD := by
                  rw [cacheUpsert_idem]
                  exact hPB
                have hrun2 := addBD_nf_part_pgen_none_eval env bd
                  ⟨cacheUpsert s.cache bd.devPath { bd with uuid := U }, s.store⟩ U parentBD
                  h1' hIP' (hUp _ _) hU hSG hPart hPB' hPGen
                rw [createIf_noop { bd with uuid := U } s.store s.store hH] at hrun2
                rw [hrun2]
              · have hrun2 := addBD_absorb_isParent env bd
                  ⟨cacheUpsert s.cache bd.devPath { bd with uuid := U }, s.store⟩ h1' hIP'
                rw [hrun2]
            · have hH0 : bd.dependentDevices.holders.length = 0 := Nat.eq_zero_of_not_pos hH
              rw [createIf_create { bd with uuid := U } s.store hH0 hSG] at hrun1
              rw [hrun1]
              simp only [afterState]
              exact idem_after_create env bd s U hMay hTail hcls hcls2 (hUp _ _) hU hSG
          · rcases hPPr : storeGet s.store PU with _ | pr
            · -- route: parent resource not found, createIfNoHolders
              have hrun1 := addBD_nf_part_pnf_eval env bd s U PU parentBD h1 hIP h3 hU
                hSG hPart hPB hPGen hPPr
              by_cases hH : bd.dependentDevices.holders.length > 0
              · rw [createIf_noop { bd with uuid := U } s.store s.store hH] at hrun1
                rw [hrun1]
                simp only [afterState]
                have h1' := classifier_true_eval env bd
                  (cacheUpsert s.cache bd.devPath { bd with uuid := U }) s.store hMay
                  (hcls_upsert bd { bd with uuid := U } s.cache hTail hcls) hTail
                rcases isParent_upsert_cases bd { bd with uuid := U } s.cache hcls2
                  with hIP' | hIP'
                · have hPB' : cacheLookup (cacheUpsert
                      (cacheUpsert s.cache bd.devPath { bd with uuid := U }) bd.devPath
                      { bd with uuid := U }) bd.dependentDevices.parent = some parentBD := by
                    rw [cacheUpsert_idem]
                    exact hPB
                  have hrun2 := addBD_nf_part_pnf_eval env bd
                    ⟨cacheUpsert s.cache bd.devPath { bd with uuid := U }, s.store⟩ U PU
                    parentBD h1' hIP' (hUp _ _) hU hSG hPart hPB' hPGen hPPr
                  rw [createIf_noop { bd with uuid := U } s.store s.store hH] at hrun2
                  rw [hrun2]
                · have hrun2 := addBD_absorb_isParent env bd
                    ⟨cacheUpsert s.cache bd.devPath { bd with uuid := U }, s.store⟩ h1' hIP'
                  rw [hrun2]
              · have hH0 : bd.dependentDevices.holders.length = 0 :=
                  Nat.eq_zero_of_not_pos hH
                rw [createIf_create { bd with uuid := U } s.store hH0 hSG] at hrun1
                rw [hrun1]
                simp only [afterState]
                exact idem_after_create env bd s U hMay hTail hcls hcls2 (hUp _ _) hU hSG
            · by_cases hprU : pr.claimState = ClaimState.unclaimed
              · exact idem_deact_leaf env bd s U PU parentBD pr hMay hTail hcls hcls2
                  h1 hIP h3 (hUp _ _) hU hSG hPart hPB hPGen hPPr hprU
              · -- route: parent resource claimed, no mutation
                have hrun1 := addBD_nf_part_pclaimed_eval env bd s U PU parentBD pr h1 hIP
                  h3 hU hSG hPart hPB hPGen hPPr hprU
                rw [hrun1]
                simp only [afterState]
                have h1' := classifier_true_eval env bd
                  (cacheUpsert s.cache bd.devPath { bd with uuid := U }) s.store hMay
                  (hcls_upsert bd { bd with uuid := U } s.cache hTail hcls) hTail
                rcases isParent_upsert_cases bd { bd with uuid := U } s.cache hcls2
                  with hIP' | hIP'
                · have hPB' : cacheLookup (cacheUpsert
                      (cacheUpsert s.cache bd.devPath { bd with uuid := U }) bd.devPath
                      { bd with uuid := U }) bd.dependentDevices.parent = some parentBD := by
                    rw [cacheUpsert_idem]
                    exact hPB
                  have hrun2 := addBD_nf_part_pclaimed_eval env bd
                    ⟨cacheUpsert s.cache bd.devPath { bd with uuid := U }, s.store⟩ U PU
                    parentBD pr h1' hIP' (hUp _ _) hU hSG hPart hPB' hPGen hPPr hprU
                  rw [hrun2]
                · have hrun2 := addBD_absorb_isParent env bd
                    ⟨cacheUpsert s.cache bd.devPath { bd with uuid := U }, s.store⟩ h1' hIP'
                  rw [hrun2]
      · by_cases hparts : bd.dependentDevices.partitions.length > 0
        · -- route: disk with partitions, no mutation
          have hrun1 := addBD_nf_disk_parts_eval env bd s U h1 hIP h3 hU hSG hPart hparts
          rw [hrun1]
          simp only [afterState]
          have h1' := classifier_true_eval env bd
            (cacheUpsert s.cache bd.devPath { bd with uuid := U }) s.store hMay
            (hcls_upsert bd { bd with uuid := U } s.cache hTail hcls) hTail
          have hIP' := isParent_nonpart bd
            (cacheUpsert s.cache bd.devPath { bd with uuid := U }) hPart
          have hrun2 := addBD_nf_disk_parts_eval env bd
            ⟨cacheUpsert s.cache bd.devPath { bd with uuid := U }, s.store⟩ U h1' hIP'
            (hUp _ _) hU hSG hPart hparts
          rw [hrun2]
        · -- route: first-seen disk, createIfNoHolders
          have hparts0 : bd.dependentDevices.partitions.length = 0 :=
            Nat.eq_zero_of_not_pos hparts
          have hrun1 := addBD_nf_disk_create_eval env bd s U h1 hIP h3 hU hSG hPart hparts0
          by_cases hH : bd.dependentDevices.holders.length > 0
          · rw [createIf_noop { bd with uuid := U } s.store s.store hH] at hrun1
            rw [hrun1]
            simp only [afterState]
            have h1' := classifier_true_eval env bd
              (cacheUpsert s.cache bd.devPath { bd with uuid := U }) s.store hMay
              (hcls_upsert bd { bd with uuid := U } s.cache hTail hcls) hTail
            have hIP' := isParent_nonpart bd
              (cacheUpsert s.cache bd.devPath { bd with uuid := U }) hPart
            have hrun2 := addBD_nf_disk_create_eval env bd
              ⟨cacheUpsert s.cache bd.devPath { bd with uuid := U }, s.store⟩ U h1' hIP'
              (hUp _ _) hU hSG hPart hparts0
            rw [createIf_noop { bd with uuid := U } s.store s.store hH] at hrun2
            rw [hrun2]
          · have hH0 : bd.dependentDevices.holders.length = 0 := Nat.eq_zero_of_not_pos hH
            rw [createIf_create { bd with uuid := U } s.store hH0 hSG] at hrun1
            rw [hrun1]
            simp only [afterState]
            exact idem_after_create env bd s U hMay hTail hcls hcls2 (hUp _ _) hU hSG
    · exact idem_found_leaf env bd s U bdAPI hMay hTail hcls hcls2 h1 hIP h3 (hUp _ _) hU hSG

/-! ## Idempotence: the legacy upgrade paths -/

/-- The resource written by `createOrUpdateWithFSUUID` for a device under
name `nm`. -/
def legacyFSResourceFor (bd : BlockDevice) (nm : String) : BDResource :=
  { toDeviceResource { bd with uuid := nm } with
    annotations := [(internalUUIDSchemeAnnot, legacyUUIDScheme),
      (internalFSUUIDAnnot, bd.fsInfo.fileSystemUUID)] }

/-- The resource written by `createOrUpdateWithPartitionUUID` for a device
under name `nm`. -/
def legacyPTResourceFor (bd : BlockDevice) (nm : String) : BDResource :=
  { toDeviceResource { bd with uuid := nm } with
    annotations := [(internalUUIDSchemeAnnot, legacyUUIDScheme),
      (internalPartitionUUIDAnnot, bd.partitionInfo.partitionTableUUID)] }

theorem addBD_upgrade_false_eval (env : Env) (bd : BlockDevice) (s : PEState)
    (st2 : Store) (tr2 : List Effect)
    (h1 : handleUnmanagedDevices env bd s.cache s.store = (.ok true, s.store, []))
    (hIP : isParentDeviceInUse bd s.cache = .ok false)
    (hupg : upgradeBD env bd s.store s.store = (.ok false, st2, tr2)) :
    processAddEvent env bd s = ⟨.ok (), s.cache, st2, tr2⟩ := by
  simp [processAddEvent, addBlockDevice, h1, hIP, hupg]

theorem addBD_upgrade_error_eval (env : Env) (bd : BlockDevice) (s : PEState)
    (e : NDMError) (st2 : Store) (tr2 : List Effect)
    (h1 : handleUnmanagedDevices env bd s.cache s.store = (.ok true, s.store, []))
    (hIP : isParentDeviceInUse bd s.cache = .ok false)
    (hupg : upgradeBD env bd s.store s.store = (.error e, st2, tr2)) :
    processAddEvent env bd s = ⟨.error e, s.cache, st2, tr2⟩ := by
  simp [processAddEvent, addBlockDevice, h1, hIP, hupg]

theorem upgradeLocalPV_to_legacy (env : Env) (bd : BlockDevice) (snap store : Store)
    (hNoGpt : ∀ u, env.generateUUID bd = some u →
      getExistingBlockDeviceResource snap u = none) :
    upgradeDeviceInUseByLocalPV env bd snap store =
      upgradeLocalPVLegacyPart env bd snap store := by
  rcases hGU : env.generateUUID bd with _ | u
  · simp [upgradeDeviceInUseByLocalPV, hGU]
  · simp [upgradeDeviceInUseByLocalPV, hGU, hNoGpt u hGU]

theorem upgradeCStor_to_legacy (env : Env) (bd : BlockDevice) (snap store : Store)
    (hNoGpt : ∀ u, env.generateUUID bd = some u →
      getExistingBlockDeviceResource snap u = none) :
    upgradeDeviceInUseByCStor env bd snap store =
      upgradeCStorLegacyPart env bd snap store := by
  rcases hGU : env.generateUUID bd with _ | u
  · simp [upgradeDeviceInUseByCStor, hGU]
  · simp [upgradeDeviceInUseByCStor, hGU, hNoGpt u hGU]

theorem legacyLP_create_eval (env : Env) (bd : BlockDevice) (store : Store)
    (hann1 : getExistingBDWithFsUuid bd store = none)
    (hby1 : getExistingBlockDeviceResource store (env.generateLegacyUUID bd).1 = none) :
    upgradeLocalPVLegacyPart env bd store store =
      (.ok false, store ++ [legacyFSResourceFor bd (env.generateLegacyUUID bd).1],
       [Effect.createBD (legacyFSResourceFor bd (env.generateLegacyUUID bd).1)]) := by
  have hsg : storeGet store (env.generateLegacyUUID bd).1 = none := hby1
  simp [upgradeLocalPVLegacyPart, hann1, hby1, createOrUpdateWithFSUUID,
    createOrUpdateWithAnnot, storeCreate, exceptToFalse, legacyFSResourceFor,
    toDeviceResource, hsg]

theorem legacyCS_create_eval (env : Env) (bd : BlockDevice) (store : Store)
    (hann1 : getExistingBDWithPartitionUUID bd store = none)
    (hby1 : getExistingBlockDeviceResource store (env.generateLegacyUUID bd).1 = none) :
    upgradeCStorLegacyPart env bd store store =
      (.ok false, store ++ [legacyPTResourceFor bd (env.generateLegacyUUID bd).1],
       [Effect.createBD (legacyPTResourceFor bd (env.generateLegacyUUID bd).1)]) := by
  have hsg : storeGet store (env.generateLegacyUUID bd).1 = none := hby1
  simp [upgradeCStorLegacyPart, hann1, hby1, createOrUpdateWithPartitionUUID,
    createOrUpdateWithAnnot, storeCreate, exceptToFalse, legacyPTResourceFor,
    toDeviceResource, hsg]

theorem legacyLP_update_eval (env : Env) (bd : BlockDevice) (store : Store)
    (ex : BDResource)
    (hex : (match getExistingBDWithFsUuid bd store with
            | some r => some r
            | none => getExistingBlockDeviceResource store
                (env.generateLegacyUUID bd).1) = some ex)
    (hbr : ¬ex.claimState = ClaimState.unclaimed ∨ (env.generateLegacyUUID bd).2 = true) :
    upgradeLocalPVLegacyPart env bd store store =
      (.ok false, storeUpdate store (legacyFSResourceFor bd ex.name) ex,
       [Effect.updateBD (legacyFSResourceFor bd ex.name) ex]) := by
  by_cases hC : ex.claimState = ClaimState.unclaimed
  · have hV : (env.generateLegacyUUID bd).2 = true := by
      rcases hbr with h | h
      · exact absurd hC h
      · exact h
    simp [upgradeLocalPVLegacyPart, hex, hC, hV, createOrUpdateWithFSUUID,
      createOrUpdateWithAnnot, exceptToFalse, legacyFSResourceFor]
  · simp [upgradeLocalPVLegacyPart, hex, hC, createOrUpdateWithFSUUID,
      createOrUpdateWithAnnot, exceptToFalse, legacyFSResourceFor]

theorem legacyCS_update_eval (env : Env) (bd : BlockDevice) (store : Store)
    (ex : BDResource)
    (hex : (match getExistingBDWithPartitionUUID bd store with
            | some r => some r
            | none => getExistingBlockDeviceResource store
                (env.generateLegacyUUID bd).1) = some ex)
    (hbr : ¬ex.claimState = ClaimState.unclaimed ∨ (env.generateLegacyUUID bd).2 = true) :
    upgradeCStorLegacyPart env bd store store =
      (.ok false, storeUpdate store (legacyPTResourceFor bd ex.name) ex,
       [Effect.updateBD (legacyPTResourceFor bd ex.name) ex]) := by
  by_cases hC : ex.claimState = ClaimState.unclaimed
  · have hV : (env.generateLegacyUUID bd).2 = true := by
      rcases hbr with h | h
      · exact absurd hC h
      · exact h
    simp [upgradeCStorLegacyPart, hex, hC, hV, createOrUpdateWithPartitionUUID,
      createOrUpdateWithAnnot, exceptToFalse, legacyPTResourceFor]
  · simp [upgradeCStorLegacyPart, hex, hC, createOrUpdateWithPartitionUUID,
      createOrUpdateWithAnnot, exceptToFalse, legacyPTResourceFor]

theorem legacyLP_error_eval (env : Env) (bd : BlockDevice) (store : Store)
    (ex : BDResource)
    (hex : (match getExistingBDWithFsUuid bd store with
            | some r => some r
            | none => getExistingBlockDeviceResource store
                (env.generateLegacyUUID bd).1) = some ex)
    (hC : ex.claimState = ClaimState.unclaimed)
    (hV : ¬(env.generateLegacyUUID bd).2 = true) :
    upgradeLocalPVLegacyPart env bd store store = (.error .unreachableState, store, []) := by
  simp [upgradeLocalPVLegacyPart, hex, hC, hV]

theorem legacyCS_error_eval (env : Env) (bd : BlockDevice) (store : Store)
    (ex : BDResource)
    (hex : (match getExistingBDWithPartitionUUID bd store with
            | some r => some r
            | none => getExistingBlockDeviceResource store
                (env.generateLegacyUUID bd).1) = some ex)
    (hC : ex.claimState = ClaimState.unclaimed)
    (hV : ¬(env.generateLegacyUUID bd).2 = true) :
    upgradeCStorLegacyPart env bd store store = (.error .unreachableState, store, []) := by
  simp [upgradeCStorLegacyPart, hex, hC, hV]

theorem addBD_upgrade_store (env : Env) (bd : BlockDevice) (s : PEState)
    (h1 : handleUnmanagedDevices env bd s.cache s.store = (.ok true, s.store, []))
    (hIP : isParentDeviceInUse bd s.cache = .ok false)
    (hne : ∀ st2 tr2, upgradeBD env bd s.store s.store ≠ (.ok true, st2, tr2)) :
    (processAddEvent env bd s).store = (upgradeBD env bd s.store s.store).2.1 ∧
    (processAddEvent env bd s).cache = s.cache := by
  rcases hup : upgradeBD env bd s.store s.store with ⟨res, st2, tr2⟩
  rcases res with e | b
  · rw [addBD_upgrade_error_eval env bd s e st2 tr2 h1 hIP hup]
    exact ⟨rfl, rfl⟩
  · cases b
    · rw [addBD_upgrade_false_eval env bd s st2 tr2 h1 hIP hup]
      exact ⟨rfl, rfl⟩
    · exact absurd hup (hne st2 tr2)

/-- Stability of the legacy existing-resource selection across the in-place
update the first run performed: the second run again selects a resource
with the same name. -/
theorem legacy_match_run2 (store : Store) (ex n : BDResource) (L : String)
    (p : BDResource → Bool)
    (annLookup : Store → Option BDResource)
    (hguard : (∀ st, annLookup st = List.find? p st) ∨ (∀ st, annLookup st = none))
    (hex : (match annLookup store with
            | some r => some r
            | none => getExistingBlockDeviceResource store L) = some ex)
    (hmatch : ∀ x : BDResource, x.name = ex.name → p (mergeUpdate x n) = true) :
    ∃ y, (match annLookup (storeUpdate store n ex) with
          | some r => some r
          | none => getExistingBlockDeviceResource (storeUpdate store n ex) L) = some y
      ∧ y.name = ex.name := by
  have hbyname2 : getExistingBlockDeviceResource store L = some ex →
      getExistingBlockDeviceResource (storeUpdate store n ex) L =
        some (mergeUpdate ex n) := by
    intro hex'
    rw [getExisting_eq_storeGet, storeGet_storeUpdate]
    rw [getExisting_eq_storeGet] at hex'
    rw [hex']
    simp
  rcases hguard with hg | hg
  · rcases hy : List.find? p (storeUpdate store n ex) with _ | y
    · rcases hann1 : List.find? p store with _ | r1
      · rw [hg store, hann1] at hex
        have hex' : getExistingBlockDeviceResource store L = some ex := hex
        refine ⟨mergeUpdate ex n, ?_, mergeUpdate_name _ _⟩
        rw [hg (storeUpdate store n ex), hy]
        exact hbyname2 hex'
      · exfalso
        rw [hg store, hann1] at hex
        have hexr1 : some r1 = some ex := hex
        injection hexr1 with hexr1
        rw [List.find?_eq_none] at hy
        have hr1mem : r1 ∈ store := List.mem_of_find?_eq_some hann1
        have hfr1 : (fun x => if x.name == ex.name then mergeUpdate x n else x) r1 =
            mergeUpdate r1 n := by
          simp [hexr1]
        have hfmem : mergeUpdate r1 n ∈ storeUpdate store n ex := by
          unfold storeUpdate
          rw [← hfr1]
          exact List.mem_map_of_mem _ hr1mem
        exact hy _ hfmem (hmatch r1 (by rw [hexr1]))
    · refine ⟨y, ?_, ?_⟩
      · rw [hg (storeUpdate store n ex), hy]
      · refine find?_map_upd_name p ex.name n store ?_ hmatch y hy
        rcases hann1 : List.find? p store with _ | r1
        · exact Or.inl rfl
        · right
          refine ⟨r1, rfl, ?_⟩
          rw [hg store, hann1] at hex
          have hexr1 : some r1 = some ex := hex
          injection hexr1 with hexr1
          rw [hexr1]
  · rw [hg store] at hex
    have hex' : getExistingBlockDeviceResource store L = some ex := hex
    refine ⟨mergeUpdate ex n, ?_, mergeUpdate_name _ _⟩
    rw [hg (storeUpdate store n ex)]
    exact hbyname2 hex'

theorem fsuuid_guard_cases (bd : BlockDevice) :
    (∀ st, getExistingBDWithFsUuid bd st =
      List.find? (fun r => lookupKV r.annotations internalFSUUIDAnnot ==
        some bd.fsInfo.fileSystemUUID) st)
    ∨ (∀ st, getExistingBDWithFsUuid bd st = none) := by
  by_cases hV : bd.fsInfo.fileSystemUUID.length = 0
  · right
    intro st
    simp [getExistingBDWithFsUuid, hV]
  · left
    intro st
    simp [getExistingBDWithFsUuid, hV]

theorem ptuuid_guard_cases (bd : BlockDevice) :
    (∀ st, getExistingBDWithPartitionUUID bd st =
      List.find? (fun r => lookupKV r.annotations internalPartitionUUIDAnnot ==
        some bd.partitionInfo.partitionTableUUID) st)
    ∨ (∀ st, getExistingBDWithPartitionUUID bd st = none) := by
  by_cases hV : bd.partitionInfo.partitionTableUUID.length = 0
  · right
    intro st
    simp [getExistingBDWithPartitionUUID, hV]
  · left
    intro st
    simp [getExistingBDWithPartitionUUID, hV]

theorem fs_match_of_ann (bd : BlockDevice) (nm : String) (x : BDResource) :
    (fun r => lookupKV r.annotations internalFSUUIDAnnot ==
      some bd.fsInfo.fileSystemUUID) (mergeUpdate x (legacyFSResourceFor bd nm)) = true := by
  have hk : (internalUUIDSchemeAnnot == internalFSUUIDAnnot) = false := by decide
  simp [mergeUpdate, legacyFSResourceFor, toDeviceResource, lookupKV, List.find?, hk]

theorem pt_match_of_ann (bd : BlockDevice) (nm : String) (x : BDResource) :
    (fun r => lookupKV r.annotations internalPartitionUUIDAnnot ==
      some bd.partitionInfo.partitionTableUUID)
      (mergeUpdate x (legacyPTResourceFor bd nm)) = true := by
  have hk : (internalUUIDSchemeAnnot == internalPartitionUUIDAnnot) = false := by decide
  simp [mergeUpdate, legacyPTResourceFor, toDeviceResource, lookupKV, List.find?, hk]

theorem fsLookup_append_lr (bd : BlockDevice) (store : Store) (nm : String)
    (hann1 : getExistingBDWithFsUuid bd store = none) :
    getExistingBDWithFsUuid bd (store ++ [legacyFSResourceFor bd nm]) = none ∨
    getExistingBDWithFsUuid bd (store ++ [legacyFSResourceFor bd nm]) =
      some (legacyFSResourceFor bd nm) := by
  have hk : (internalUUIDSchemeAnnot == internalFSUUIDAnnot) = false := by decide
  by_cases hV : bd.fsInfo.fileSystemUUID.length = 0
  · left
    simp [getExistingBDWithFsUuid, hV]
  · right
    have h1 : List.find? (fun r => lookupKV r.annotations internalFSUUIDAnnot ==
        some bd.fsInfo.fileSystemUUID) store = none := by
      simpa [getExistingBDWithFsUuid, hV] using hann1
    have h2 : List.find? (fun r => lookupKV r.annotations internalFSUUIDAnnot ==
        some bd.fsInfo.fileSystemUUID) [legacyFSResourceFor bd nm] =
        some (legacyFSResourceFor bd nm) := by
      have hp : (lookupKV (legacyFSResourceFor bd nm).annotations internalFSUUIDAnnot ==
          some bd.fsInfo.fileSystemUUID) = true := by
        simp [legacyFSResourceFor, toDeviceResource, lookupKV, List.find?, hk]
      simp [List.find?, hp]
    simp [getExistingBDWithFsUuid, hV, List.find?_append, h1, h2]

theorem ptLookup_append_lr (bd : BlockDevice) (store : Store) (nm : String)
    (hann1 : getExistingBDWithPartitionUUID bd store = none) :
    getExistingBDWithPartitionUUID bd (store ++ [legacyPTResourceFor bd nm]) = none ∨
    getExistingBDWithPartitionUUID bd (store ++ [legacyPTResourceFor bd nm]) =
      some (legacyPTResourceFor bd nm) := by
  have hk : (internalUUIDSchemeAnnot == internalPartitionUUIDAnnot) = false := by decide
  by_cases hV : bd.partitionInfo.partitionTableUUID.length = 0
  · left
    simp [getExistingBDWithPartitionUUID, hV]
  · right
    have h1 : List.find? (fun r => lookupKV r.annotations internalPartitionUUIDAnnot ==
        some bd.partitionInfo.partitionTableUUID) store = none := by
      simpa [getExistingBDWithPartitionUUID, hV] using hann1
    have h2 : List.find? (fun r => lookupKV r.annotations internalPartitionUUIDAnnot ==
        some bd.partitionInfo.partitionTableUUID) [legacyPTResourceFor bd nm] =
        some (legacyPTResourceFor bd nm) := by
      have hp : (lookupKV (legacyPTResourceFor bd nm).annotations internalPartitionUUIDAnnot ==
          some bd.partitionInfo.partitionTableUUID) = true := by
        simp [legacyPTResourceFor, toDeviceResource, lookupKV, List.find?, hk]
      simp [List.find?, hp]
    simp [getExistingBDWithPartitionUUID, hV, List.find?_append, h1, h2]

theorem legacyLP_post_fix (env : Env) (bd : BlockDevice) (store1 : Store) (y : BDResource)
    (hex2 : (match getExistingBDWithFsUuid bd store1 with
            | some r => some r
            | none => getExistingBlockDeviceResource store1
                (env.generateLegacyUUID bd).1) = some y)
    (hfixU : storeUpdate store1 (legacyFSResourceFor bd y.name) y = store1) :
    (upgradeLocalPVLegacyPart env bd store1 store1).2.1 = store1 := by
  by_cases hC : y.claimState = ClaimState.unclaimed
  · by_cases hV : (env.generateLegacyUUID bd).2 = true
    · rw [legacyLP_update_eval env bd store1 y hex2 (Or.inr hV)]
      exact hfixU
    · rw [legacyLP_error_eval env bd store1 y hex2 hC hV]
  · rw [legacyLP_update_eval env bd store1 y hex2 (Or.inl hC)]
    exact hfixU

theorem legacyCS_post_fix (env : Env) (bd : BlockDevice) (store1 : Store) (y : BDResource)
    (hex2 : (match getExistingBDWithPartitionUUID bd store1 with
            | some r => some r
            | none => getExistingBlockDeviceResource store1
                (env.generateLegacyUUID bd).1) = some y)
    (hfixU : storeUpdate store1 (legacyPTResourceFor bd y.name) y = store1) :
    (upgradeCStorLegacyPart env bd store1 store1).2.1 = store1 := by
  by_cases hC : y.claimState = ClaimState.unclaimed
  · by_cases hV : (env.generateLegacyUUID bd).2 = true
    · rw [legacyCS_update_eval env bd store1 y hex2 (Or.inr hV)]
      exact hfixU
    · rw [legacyCS_error_eval env bd store1 y hex2 hC hV]
  · rw [legacyCS_update_eval env bd store1 y hex2 (Or.inl hC)]
    exact hfixU

theorem upgradeLP_store_idem (env : Env) (bd : BlockDevice) (store : Store)
    (hIn : bd.devUse.inUse = true)
    (hUB : bd.devUse.usedBy = DeviceUsedBy.localPV)
    (hNoGpt : ∀ u, env.generateUUID bd = some u →
      getExistingBlockDeviceResource store u = none) :
    (∀ st tr, upgradeBD env bd store store ≠ (.ok true, st, tr))
    ∧ (∀ st tr, upgradeBD env bd (upgradeBD env bd store store).2.1
        (upgradeBD env bd store store).2.1 ≠ (.ok true, st, tr))
    ∧ (upgradeBD env bd (upgradeBD env bd store store).2.1
        (upgradeBD env bd store store).2.1).2.1 = (upgradeBD env bd store store).2.1 := by
  have hub : ∀ snap st', upgradeBD env bd snap st' =
      upgradeDeviceInUseByLocalPV env bd snap st' := by
    intro snap st'
    simp [upgradeBD, hIn, hUB]
  have hleg1 : upgradeBD env bd store store = upgradeLocalPVLegacyPart env bd store store := by
    rw [hub]
    exact upgradeLocalPV_to_legacy env bd store store hNoGpt
  have hne1 : ∀ st tr, upgradeBD env bd store store ≠ (.ok true, st, tr) := by
    intro st tr h
    rw [hleg1] at h
    exact upgradeLocalPVLegacyPart_ne_true env bd store store st tr h
  refine ⟨hne1, ?_⟩
  rcases hex1 : (match getExistingBDWithFsUuid bd store with
      | some r => some r
      | none => getExistingBlockDeviceResource store (env.generateLegacyUUID bd).1)
      with _ | ex
  · -- run one creates the legacy resource
    have hann1 : getExistingBDWithFsUuid bd store = none := by
      rcases h : getExistingBDWithFsUuid bd store with _ | r
      · rfl
      · rw [h] at hex1
        exact absurd hex1 (by simp)
    have hby1 : getExistingBlockDeviceResource store (env.generateLegacyUUID bd).1 = none := by
      rw [hann1] at hex1
      exact hex1
    have hrun1 : upgradeBD env bd store store =
        (.ok false, store ++ [legacyFSResourceFor bd (env.generateLegacyUUID bd).1],
         [Effect.createBD (legacyFSResourceFor bd (env.generateLegacyUUID bd).1)]) := by
      rw [hleg1]
      exact legacyLP_create_eval env bd store hann1 hby1
    rw [hrun1]
    have hby2 : getExistingBlockDeviceResource
        (store ++ [legacyFSResourceFor bd (env.generateLegacyUUID bd).1])
        (env.generateLegacyUUID bd).1 =
        some (legacyFSResourceFor bd (env.generateLegacyUUID bd).1) := by
      rw [getExisting_eq_storeGet, storeGet_append_of_none _ _ _ hby1]
      simp [legacyFSResourceFor, toDeviceResource]
    have hex2 : (match getExistingBDWithFsUuid bd
          (store ++ [legacyFSResourceFor bd (env.generateLegacyUUID bd).1]) with
        | some r => some r
        | none => getExistingBlockDeviceResource
            (store ++ [legacyFSResourceFor bd (env.generateLegacyUUID bd).1])
            (env.generateLegacyUUID bd).1) =
        some (legacyFSResourceFor bd (env.generateLegacyUUID bd).1) := by
      rcases fsLookup_append_lr bd store (env.generateLegacyUUID bd).1 hann1 with h | h
      · rw [h]
        exact hby2
      · rw [h]
    have hfixU : storeUpdate
        (store ++ [legacyFSResourceFor bd (env.generateLegacyUUID bd).1])
        (legacyFSResourceFor bd
          (legacyFSResourceFor bd (env.generateLegacyUUID bd).1).name)
        (legacyFSResourceFor bd (env.generateLegacyUUID bd).1) =
        store ++ [legacyFSResourceFor bd (env.generateLegacyUUID bd).1] := by
      apply storeUpdate_eq_self
      intro x hx hxn
      rcases List.mem_append.mp hx with hx | hx
      · exact absurd hxn (storeGet_none_names _ _ hby1 x hx)
      · rw [List.mem_singleton] at hx
        subst hx
        exact mergeUpdate_self _
    rcases hGU : env.generateUUID bd with _ | u
    · have hrw : upgradeBD env bd
          (store ++ [legacyFSResourceFor bd (env.generateLegacyUUID bd).1])
          (store ++ [legacyFSResourceFor bd (env.generateLegacyUUID bd).1]) =
          upgradeLocalPVLegacyPart env bd
            (store ++ [legacyFSResourceFor bd (env.generateLegacyUUID bd).1])
            (store ++ [legacyFSResourceFor bd (env.generateLegacyUUID bd).1]) := by
        rw [hub]
        simp [upgradeDeviceInUseByLocalPV, hGU]
      constructor
      · intro st tr h
        rw [hrw] at h
        exact upgradeLocalPVLegacyPart_ne_true env bd _ _ st tr h
      · rw [hrw]
        exact legacyLP_post_fix env bd _ _ hex2 hfixU
    · by_cases hUL : (env.generateLegacyUUID bd).1 = u
      · have hEx2 : getExistingBlockDeviceResource
            (store ++ [legacyFSResourceFor bd (env.generateLegacyUUID bd).1]) u =
            some (legacyFSResourceFor bd (env.generateLegacyUUID bd).1) := by
          rw [← hUL]
          exact hby2
        have hrun2 : upgradeBD env bd
            (store ++ [legacyFSResourceFor bd (env.generateLegacyUUID bd).1])
            (store ++ [legacyFSResourceFor bd (env.generateLegacyUUID bd).1]) =
            (.error .unreachableState,
             store ++ [legacyFSResourceFor bd (env.generateLegacyUUID bd).1], []) := by
          rw [hub]
          simp [upgradeDeviceInUseByLocalPV, hGU, hEx2]
          rfl
        constructor
        · intro st tr h
          rw [hrun2] at h
          simp at h
        · rw [hrun2]
      · have hEx2 : getExistingBlockDeviceResource
            (store ++ [legacyFSResourceFor bd (env.generateLegacyUUID bd).1]) u = none := by
          rw [getExisting_eq_storeGet, storeGet_append_of_none _ _ _ (hNoGpt u hGU)]
          simp [legacyFSResourceFor, toDeviceResource, hUL]
        have hrw : upgradeBD env bd
            (store ++ [legacyFSResourceFor bd (env.generateLegacyUUID bd).1])
            (store ++ [legacyFSResourceFor bd (env.generateLegacyUUID bd).1]) =
            upgradeLocalPVLegacyPart env bd
              (store ++ [legacyFSResourceFor bd (env.generateLegacyUUID bd).1])
              (store ++ [legacyFSResourceFor bd (env.generateLegacyUUID bd).1]) := by
          rw [hub]
          simp [upgradeDeviceInUseByLocalPV, hGU, hEx2]
        constructor
        · intro st tr h
          rw [hrw] at h
          exact upgradeLocalPVLegacyPart_ne_true env bd _ _ st tr h
        · rw [hrw]
          exact legacyLP_post_fix env bd _ _ hex2 hfixU
  · -- run one updated or rejected an existing legacy resource
    by_cases hC : ex.claimState = ClaimState.unclaimed
    · by_cases hV : (env.generateLegacyUUID bd).2 = true
      · -- update in place (virtual device)
        have hrun1 : upgradeBD env bd store store =
            (.ok false, storeUpdate store (legacyFSResourceFor bd ex.name) ex,
             [Effect.updateBD (legacyFSResourceFor bd ex.name) ex]) := by
          rw [hleg1]
          exact legacyLP_update_eval env bd store ex hex1 (Or.inr hV)
        rw [hrun1]
        have hNoGpt2 : ∀ u, env.generateUUID bd = some u →
            getExistingBlockDeviceResource
              (storeUpdate store (legacyFSResourceFor bd ex.name) ex) u = none := by
          intro u hu
          rw [getExisting_eq_storeGet, storeGet_storeUpdate]
          have := hNoGpt u hu
          rw [getExisting_eq_storeGet] at this
          rw [this]
          rfl
        obtain ⟨y, hy, hyname⟩ := legacy_match_run2 store ex
          (legacyFSResourceFor bd ex.name) (env.generateLegacyUUID bd).1
          (fun r => lookupKV r.annotations internalFSUUIDAnnot ==
            some bd.fsInfo.fileSystemUUID)
          (getExistingBDWithFsUuid bd) (fsuuid_guard_cases bd) hex1
          (fun x _ => fs_match_of_ann bd ex.name x)
        have hrw : upgradeBD env bd
            (storeUpdate store (legacyFSResourceFor bd ex.name) ex)
            (storeUpdate store (legacyFSResourceFor bd ex.name) ex) =
            upgradeLocalPVLegacyPart env bd
              (storeUpdate store (legacyFSResourceFor bd ex.name) ex)
              (storeUpdate store (legacyFSResourceFor bd ex.name) ex) := by
          rw [hub]
          exact upgradeLocalPV_to_legacy env bd _ _ hNoGpt2
        have hfixU : storeUpdate (storeUpdate store (legacyFSResourceFor bd ex.name) ex)
            (legacyFSResourceFor bd y.name) y =
            storeUpdate store (legacyFSResourceFor bd ex.name) ex := by
          rw [hyname]
          exact storeUpdate_idem_name store (legacyFSResourceFor bd ex.name) ex y hyname
        constructor
        · intro st tr h
          rw [hrw] at h
          exact upgradeLocalPVLegacyPart_ne_true env bd _ _ st tr h
        · rw [hrw]
          exact legacyLP_post_fix env bd _ y hy hfixU
      · -- internal-consistency error, nothing written
        have hrun1 : upgradeBD env bd store store =
            (.error .unreachableState, store, []) := by
          rw [hleg1]
          exact legacyLP_error_eval env bd store ex hex1 hC hV
        rw [hrun1]
        exact ⟨hne1, by rw [hrun1]⟩
    · -- claimed: update in place
      have hrun1 : upgradeBD env bd store store =
          (.ok false, storeUpdate store (legacyFSResourceFor bd ex.name) ex,
           [Effect.updateBD (legacyFSResourceFor bd ex.name) ex]) := by
        rw [hleg1]
        exact legacyLP_update_eval env bd store ex hex1 (Or.inl hC)
      rw [hrun1]
      have hNoGpt2 : ∀ u, env.generateUUID bd = some u →
          getExistingBlockDeviceResource
            (storeUpdate store (legacyFSResourceFor bd ex.name) ex) u = none := by
        intro u hu
        rw [getExisting_eq_storeGet, storeGet_storeUpdate]
        have := hNoGpt u hu
        rw [getExisting_eq_storeGet] at this
        rw [this]
        rfl
      obtain ⟨y, hy, hyname⟩ := legacy_match_run2 store ex
        (legacyFSResourceFor bd ex.name) (env.generateLegacyUUID bd).1
        (fun r => lookupKV r.annotations internalFSUUIDAnnot ==
          some bd.fsInfo.fileSystemUUID)
        (getExistingBDWithFsUuid bd) (fsuuid_guard_cases bd) hex1
        (fun x _ => fs_match_of_ann bd ex.name x)
      have hrw : upgradeBD env bd
          (storeUpdate store (legacyFSResourceFor bd ex.name) ex)
          (storeUpdate store (legacyFSResourceFor bd ex.name) ex) =
          upgradeLocalPVLegacyPart env bd
            (storeUpdate store (legacyFSResourceFor bd ex.name) ex)
            (storeUpdate store (legacyFSResourceFor bd ex.name) ex) := by
        rw [hub]
        exact upgradeLocalPV_to_legacy env bd _ _ hNoGpt2
      have hfixU : storeUpdate (storeUpdate store (legacyFSResourceFor bd ex.name) ex)
          (legacyFSResourceFor bd y.name) y =
          storeUpdate store (legacyFSResourceFor bd ex.name) ex := by
        rw [hyname]
        exact storeUpdate_idem_name store (legacyFSResourceFor bd ex.name) ex y hyname
      constructor
      · intro st tr h
        rw [hrw] at h
        exact upgradeLocalPVLegacyPart_ne_true env bd _ _ st tr h
      · rw [hrw]
        exact legacyLP_post_fix env bd _ y hy hfixU

theorem upgradeCS_store_idem (env : Env) (bd : BlockDevice) (store : Store)
    (hIn : bd.devUse.inUse = true)
    (hUB : bd.devUse.usedBy = DeviceUsedBy.cstor)
    (hNoGpt : ∀ u, env.generateUUID bd = some u →
      getExistingBlockDeviceResource store u = none) :
    (∀ st tr, upgradeBD env bd store store ≠ (.ok true, st, tr))
    ∧ (∀ st tr, upgradeBD env bd (upgradeBD env bd store store).2.1
        (upgradeBD env bd store store).2.1 ≠ (.ok true, st, tr))
    ∧ (upgradeBD env bd (upgradeBD env bd store store).2.1
        (upgradeBD env bd store store).2.1).2.1 = (upgradeBD env bd store store).2.1 := by
  have hub : ∀ snap st', upgradeBD env bd snap st' =
      upgradeDeviceInUseByCStor env bd snap st' := by
    intro snap st'
    simp [upgradeBD, hIn, hUB]
  have hleg1 : upgradeBD env bd store store = upgradeCStorLegacyPart env bd store store := by
    rw [hub]
    exact upgradeCStor_to_legacy env bd store store hNoGpt
  have hne1 : ∀ st tr, upgradeBD env bd store store ≠ (.ok true, st, tr) := by
    intro st tr h
    rw [hleg1] at h
    exact upgradeCStorLegacyPart_ne_true env bd store store st tr h
  refine ⟨hne1, ?_⟩
  rcases hex1 : (match getExistingBDWithPartitionUUID bd store with
      | some r => some r
      | none => getExistingBlockDeviceResource store (env.generateLegacyUUID bd).1)
      with _ | ex
  · -- run one creates the legacy resource
    have hann1 : getExistingBDWithPartitionUUID bd store = none := by
      rcases h : getExistingBDWithPartitionUUID bd store with _ | r
      · rfl
      · rw [h] at hex1
        exact absurd hex1 (by simp)
    have hby1 : getExistingBlockDeviceResource store (env.generateLegacyUUID bd).1 = none := by
      rw [hann1] at hex1
      exact hex1
    have hrun1 : upgradeBD env bd store store =
        (.ok false, store ++ [legacyPTResourceFor bd (env.generateLegacyUUID bd).1],
         [Effect.createBD (legacyPTResourceFor bd (env.generateLegacyUUID bd).1)]) := by
      rw [hleg1]
      exact legacyCS_create_eval env bd store hann1 hby1
    rw [hrun1]
    have hby2 : getExistingBlockDeviceResource
        (store ++ [legacyPTResourceFor bd (env.generateLegacyUUID bd).1])
        (env.generateLegacyUUID bd).1 =
        some (legacyPTResourceFor bd (env.generateLegacyUUID bd).1) := by
      rw [getExisting_eq_storeGet, storeGet_append_of_none _ _ _ hby1]
      simp [legacyPTResourceFor, toDeviceResource]
    have hex2 : (match getExistingBDWithPartitionUUID bd
          (store ++ [legacyPTResourceFor bd (env.generateLegacyUUID bd).1]) with
        | some r => some r
        | none => getExistingBlockDeviceResource
            (store ++ [legacyPTResourceFor bd (env.generateLegacyUUID bd).1])
            (env.generateLegacyUUID bd).1) =
        some (legacyPTResourceFor bd (env.generateLegacyUUID bd).1) := by
      rcases ptLookup_append_lr bd store (env.generateLegacyUUID bd).1 hann1 with h | h
      · rw [h]
        exact hby2
      · rw [h]
    have hfixU : storeUpdate
        (store ++ [legacyPTResourceFor bd (env.generateLegacyUUID bd).1])
        (legacyPTResourceFor bd
          (legacyPTResourceFor bd (env.generateLegacyUUID bd).1).name)
        (legacyPTResourceFor bd (env.generateLegacyUUID bd).1) =
        store ++ [legacyPTResourceFor bd (env.generateLegacyUUID bd).1] := by
      apply storeUpdate_eq_self
      intro x hx hxn
      rcases List.mem_append.mp hx with hx | hx
      · exact absurd hxn (storeGet_none_names _ _ hby1 x hx)
      · rw [List.mem_singleton] at hx
        subst hx
        exact mergeUpdate_self _
    rcases hGU : env.generateUUID bd with _ | u
    · have hrw : upgradeBD env bd
          (store ++ [legacyPTResourceFor bd (env.generateLegacyUUID bd).1])
          (store ++ [legacyPTResourceFor bd (env.generateLegacyUUID bd).1]) =
          upgradeCStorLegacyPart env bd
            (store ++ [legacyPTResourceFor bd (env.generateLegacyUUID bd).1])
            (store ++ [legacyPTResourceFor bd (env.generateLegacyUUID bd).1]) := by
        rw [hub]
        simp [upgradeDeviceInUseByCStor, hGU]
      constructor
      · intro st tr h
        rw [hrw] at h
        exact upgradeCStorLegacyPart_ne_true env bd _ _ st tr h
      · rw [hrw]
        exact legacyCS_post_fix env bd _ _ hex2 hfixU
    · by_cases hUL : (env.generateLegacyUUID bd).1 = u
      · have hEx2 : getExistingBlockDeviceResource
            (store ++ [legacyPTResourceFor bd (env.generateLegacyUUID bd).1]) u =
            some (legacyPTResourceFor bd (env.generateLegacyUUID bd).1) := by
          rw [← hUL]
          exact hby2
        have hrun2 : upgradeBD env bd
            (store ++ [legacyPTResourceFor bd (env.generateLegacyUUID bd).1])
            (store ++ [legacyPTResourceFor bd (env.generateLegacyUUID bd).1]) =
            (.error .unreachableState,
             store ++ [legacyPTResourceFor bd (env.generateLegacyUUID bd).1], []) := by
          rw [hub]
          simp [upgradeDeviceInUseByCStor, hGU, hEx2]
          rfl
        constructor
        · intro st tr h
          rw [hrun2] at h
          simp at h
        · rw [hrun2]
      · have hEx2 : getExistingBlockDeviceResource
            (store ++ [legacyPTResourceFor bd (env.generateLegacyUUID bd).1]) u = none := by
          rw [getExisting_eq_storeGet, storeGet_append_of_none _ _ _ (hNoGpt u hGU)]
          simp [legacyPTResourceFor, toDeviceResource, hUL]
        have hrw : upgradeBD env bd
            (store ++ [legacyPTResourceFor bd (env.generateLegacyUUID bd).1])
            (store ++ [legacyPTResourceFor bd (env.generateLegacyUUID bd).1]) =
            upgradeCStorLegacyPart env bd
              (store ++ [legacyPTResourceFor bd (env.generateLegacyUUID bd).1])
              (store ++ [legacyPTResourceFor bd (env.generateLegacyUUID bd).1]) := by
          rw [hub]
          simp [upgradeDeviceInUseByCStor, hGU, hEx2]
        constructor
        · intro st tr h
          rw [hrw] at h
          exact upgradeCStorLegacyPart_ne_true env bd _ _ st tr h
        · rw [hrw]
          exact legacyCS_post_fix env bd _ _ hex2 hfixU
  · -- run one updated or rejected an existing legacy resource
    by_cases hC : ex.claimState = ClaimState.unclaimed
    · by_cases hV : (env.generateLegacyUUID bd).2 = true
      · have hrun1 : upgradeBD env bd store store =
            (.ok false, storeUpdate store (legacyPTResourceFor bd ex.name) ex,
             [Effect.updateBD (legacyPTResourceFor bd ex.name) ex]) := by
          rw [hleg1]
          exact legacyCS_update_eval env bd store ex hex1 (Or.inr hV)
        rw [hrun1]
        have hNoGpt2 : ∀ u, env.generateUUID bd = some u →
            getExistingBlockDeviceResource
              (storeUpdate store (legacyPTResourceFor bd ex.name) ex) u = none := by
          intro u hu
          rw [getExisting_eq_storeGet, storeGet_storeUpdate]
          have := hNoGpt u hu
          rw [getExisting_eq_storeGet] at this
          rw [this]
          rfl
        obtain ⟨y, hy, hyname⟩ := legacy_match_run2 store ex
          (legacyPTResourceFor bd ex.name) (env.generateLegacyUUID bd).1
          (fun r => lookupKV r.annotations internalPartitionUUIDAnnot ==
            some bd.partitionInfo.partitionTableUUID)
          (getExistingBDWithPartitionUUID bd) (ptuuid_guard_cases bd) hex1
          (fun x _ => pt_match_of_ann bd ex.name x)
        have hrw : upgradeBD env bd
            (storeUpdate store (legacyPTResourceFor bd ex.name) ex)
            (storeUpdate store (legacyPTResourceFor bd ex.name) ex) =
            upgradeCStorLegacyPart env bd
              (storeUpdate store (legacyPTResourceFor bd ex.name) ex)
              (storeUpdate store (legacyPTResourceFor bd ex.name) ex) := by
          rw [hub]
          exact upgradeCStor_to_legacy env bd _ _ hNoGpt2
        have hfixU : storeUpdate (storeUpdate store (legacyPTResourceFor bd ex.name) ex)
            (legacyPTResourceFor bd y.name) y =
            storeUpdate store (legacyPTResourceFor bd ex.name) ex := by
          rw [hyname]
          exact storeUpdate_idem_name store (legacyPTResourceFor bd ex.name) ex y hyname
        constructor
        · intro st tr h
          rw [hrw] at h
          exact upgradeCStorLegacyPart_ne_true env bd _ _ st tr h
        · rw [hrw]
          exact legacyCS_post_fix env bd _ y hy hfixU
      · have hrun1 : upgradeBD env bd store store =
            (.error .unreachableState, store, []) := by
          rw [hleg1]
          exact legacyCS_error_eval env bd store ex hex1 hC hV
        rw [hrun1]
        exact ⟨hne1, by rw [hrun1]⟩
    · have hrun1 : upgradeBD env bd store store =
          (.ok false, storeUpdate store (legacyPTResourceFor bd ex.name) ex,
           [Effect.updateBD (legacyPTResourceFor bd ex.name) ex]) := by
        rw [hleg1]
        exact legacyCS_update_eval env bd store ex hex1 (Or.inl hC)
      rw [hrun1]
      have hNoGpt2 : ∀ u, env.generateUUID bd = some u →
          getExistingBlockDeviceResource
            (storeUpdate store (legacyPTResourceFor bd ex.name) ex) u = none := by
        intro u hu
        rw [getExisting_eq_storeGet, storeGet_storeUpdate]
        have := hNoGpt u hu
        rw [getExisting_eq_storeGet] at this
        rw [this]
        rfl
      obtain ⟨y, hy, hyname⟩ := legacy_match_run2 store ex
        (legacyPTResourceFor bd ex.name) (env.generateLegacyUUID bd).1
        (fun r => lookupKV r.annotations internalPartitionUUIDAnnot ==
          some bd.partitionInfo.partitionTableUUID)
        (getExistingBDWithPartitionUUID bd) (ptuuid_guard_cases bd) hex1
        (fun x _ => pt_match_of_ann bd ex.name x)
      have hrw : upgradeBD env bd
          (storeUpdate store (legacyPTResourceFor bd ex.name) ex)
          (storeUpdate store (legacyPTResourceFor bd ex.name) ex) =
          upgradeCStorLegacyPart env bd
            (storeUpdate store (legacyPTResourceFor bd ex.name) ex)
            (storeUpdate store (legacyPTResourceFor bd ex.name) ex) := by
        rw [hub]
        exact upgradeCStor_to_legacy env bd _ _ hNoGpt2
      have hfixU : storeUpdate (storeUpdate store (legacyPTResourceFor bd ex.name) ex)
          (legacyPTResourceFor bd y.name) y =
          storeUpdate store (legacyPTResourceFor bd ex.name) ex := by
        rw [hyname]
        exact storeUpdate_idem_name store (legacyPTResourceFor bd ex.name) ex y hyname
      constructor
      · intro st tr h
        rw [hrw] at h
        exact upgradeCStorLegacyPart_ne_true env bd _ _ st tr h
      · rw [hrw]
        exact legacyCS_post_fix env bd _ y hy hfixU

theorem idem_legacy (env : Env) (bd : BlockDevice) (s : PEState)
    (hMay : deviceInUseByMayastor bd = true)
    (hTail : ¬(bd.devUse.inUse = true ∧ bd.devUse.usedBy = DeviceUsedBy.zfsLocalPV))
    (hcls2 : bd.deviceAttributes.deviceType = blockDeviceTypePartition →
      ∃ p0, cacheLookup s.cache bd.dependentDevices.parent = some p0 ∧
        p0.devUse.inUse = false)
    (hIn : bd.devUse.inUse = true)
    (hUB : bd.devUse.usedBy = DeviceUsedBy.localPV ∨ bd.devUse.usedBy = DeviceUsedBy.cstor)
    (hNoGpt : ∀ u, env.generateUUID bd = some u →
      getExistingBlockDeviceResource s.store u = none) :
    (processAddEvent env bd (afterState (processAddEvent env bd s))).store
      = (processAddEvent env bd s).store := by
  have hcls : bd.deviceAttributes.deviceType = blockDeviceTypePartition →
      ∃ p0, cacheLookup s.cache bd.dependentDevices.parent = some p0 ∧
        ¬(p0.devUse.inUse = true ∧ p0.devUse.usedBy = DeviceUsedBy.zfsLocalPV) := by
    intro hPart
    obtain ⟨p0, hp0, hpin⟩ := hcls2 hPart
    exact ⟨p0, hp0, fun hx => by simp [hpin] at hx⟩
  have h1 := classifier_true_eval env bd s.cache s.store hMay hcls hTail
  have hIP : isParentDeviceInUse bd s.cache = .ok false := by
    by_cases hPart : bd.deviceAttributes.deviceType = blockDeviceTypePartition
    · obtain ⟨p0, hp0, hpin⟩ := hcls2 hPart
      simp [isParentDeviceInUse, hPart, hp0, hpin]
    · simp [isParentDeviceInUse, hPart]
  obtain ⟨hne1, hne2, hfix⟩ :
      (∀ st tr, upgradeBD env bd s.store s.store ≠ (.ok true, st, tr))
      ∧ (∀ st tr, upgradeBD env bd (upgradeBD env bd s.store s.store).2.1
          (upgradeBD env bd s.store s.store).2.1 ≠ (.ok true, st, tr))
      ∧ (upgradeBD env bd (upgradeBD env bd s.store s.store).2.1
          (upgradeBD env bd s.store s.store).2.1).2.1 =
          (upgradeBD env bd s.store s.store).2.1 := by
    rcases hUB with h | h
    · exact upgradeLP_store_idem env bd s.store hIn h hNoGpt
    · exact upgradeCS_store_idem env bd s.store hIn h hNoGpt
  obtain ⟨hst1, hc1⟩ := addBD_upgrade_store env bd s h1 hIP hne1
  have hs2c : (afterState (processAddEvent env bd s)).cache = s.cache := by
    simp [afterState, hc1]
  have hs2s : (afterState (processAddEvent env bd s)).store =
      (upgradeBD env bd s.store s.store).2.1 := by
    simp [afterState, hst1]
  have h1x : handleUnmanagedDevices env bd (afterState (processAddEvent env bd s)).cache
      (afterState (processAddEvent env bd s)).store =
      (.ok true, (afterState (processAddEvent env bd s)).store, []) := by
    rw [hs2c, hs2s]
    exact classifier_true_eval env bd s.cache
      (upgradeBD env bd s.store s.store).2.1 hMay hcls hTail
  have hIPx : isParentDeviceInUse bd (afterState (processAddEvent env bd s)).cache =
      .ok false := by
    rw [hs2c]
    exact hIP
  have hne2x : ∀ st tr, upgradeBD env bd (afterState (processAddEvent env bd s)).store
      (afterState (processAddEvent env bd s)).store ≠ (.ok true, st, tr) := by
    rw [hs2s]
    exact hne2
  obtain ⟨hst2, _⟩ :=
    addBD_upgrade_store env bd (afterState (processAddEvent env bd s)) h1x hIPx hne2x
  rw [hst2, hst1, hs2s]
  exact hfix

/-! ## Idempotence: remaining branches and the assembled theorem -/

theorem upgradeBD_gpt_unclaimed (env : Env) (bd : BlockDevice) (snapshot store : Store)
    (U : String) (r : BDResource)
    (hIn : bd.devUse.inUse = true)
    (hUB : bd.devUse.usedBy = DeviceUsedBy.localPV ∨ bd.devUse.usedBy = DeviceUsedBy.cstor)
    (hU : env.generateUUID bd = some U)
    (hEx : getExistingBlockDeviceResource snapshot U = some r)
    (hC : r.claimState = ClaimState.unclaimed) :
    upgradeBD env bd snapshot store = (.error .unreachableState, store, []) := by
  rcases hUB with h | h
  · simp [upgradeBD, hIn, h, upgradeDeviceInUseByLocalPV, hU, hEx, hC]
  · by_cases h1 : bd.devUse.usedBy = DeviceUsedBy.localPV
    · rw [h1] at h
      cases h
    · simp [upgradeBD, hIn, h1, h, upgradeDeviceInUseByCStor, hU, hEx, hC]

theorem idem_generic_claimed (env : Env) (bd : BlockDevice) (s : PEState) (U : String)
    (r : BDResource)
    (hMay : deviceInUseByMayastor bd = true)
    (hTail : ¬(bd.devUse.inUse = true ∧ bd.devUse.usedBy = DeviceUsedBy.zfsLocalPV))
    (hcls2 : bd.deviceAttributes.deviceType = blockDeviceTypePartition →
      ∃ p0, cacheLookup s.cache bd.dependentDevices.parent = some p0 ∧
        p0.devUse.inUse = false)
    (hU : env.generateUUID bd = some U)
    (hSG : storeGet s.store U = some r)
    (hC : ¬r.claimState = ClaimState.unclaimed) :
    (processAddEvent env bd (afterState (processAddEvent env bd s))).store
      = (processAddEvent env bd s).store := by
  have hcls : bd.deviceAttributes.deviceType = blockDeviceTypePartition →
      ∃ p0, cacheLookup s.cache bd.dependentDevices.parent = some p0 ∧
        ¬(p0.devUse.inUse = true ∧ p0.devUse.usedBy = DeviceUsedBy.zfsLocalPV) := by
    intro hPart
    obtain ⟨p0, hp0, hpin⟩ := hcls2 hPart
    exact ⟨p0, hp0, fun hx => by simp [hpin] at hx⟩
  have h1 := classifier_true_eval env bd s.cache s.store hMay hcls hTail
  have hIP : isParentDeviceInUse bd s.cache = .ok false := by
    by_cases hPart : bd.deviceAttributes.deviceType = blockDeviceTypePartition
    · obtain ⟨p0, hp0, hpin⟩ := hcls2 hPart
      simp [isParentDeviceInUse, hPart, hp0, hpin]
    · simp [isParentDeviceInUse, hPart]
  have h3 := upgradeBD_gpt_claimed env bd s.store s.store U r hU
    (by rw [getExisting_eq_storeGet]; exact hSG) hC
  have hSG1 : storeGet (storeUpdate s.store (gptResourceFor bd U) r) U =
      some (mergeUpdate r (gptResourceFor bd U)) := by
    rw [storeGet_storeUpdate, hSG]
    simp
  have hC1 : ¬(mergeUpdate r (gptResourceFor bd U)).claimState = ClaimState.unclaimed := by
    rw [mergeUpdate_claimState]
    exact hC
  have h3' := upgradeBD_gpt_claimed env bd (storeUpdate s.store (gptResourceFor bd U) r)
    (storeUpdate s.store (gptResourceFor bd U) r) U (mergeUpdate r (gptResourceFor bd U)) hU
    (by rw [getExisting_eq_storeGet]; exact hSG1) hC1
  exact idem_found_leaf env bd s U r hMay hTail hcls hcls2 h1 hIP h3 h3' hU hSG

theorem addBD_mayastor_eval (env : Env) (bd : BlockDevice) (s : PEState)
    (hMay : deviceInUseByMayastor bd = false) :
    processAddEvent env bd s = ⟨.ok (), s.cache, s.store, []⟩ := by
  simp [processAddEvent, addBlockDevice, handleUnmanagedDevices, hMay]

theorem addBD_zfs_parent_missing_eval (env : Env) (bd : BlockDevice) (s : PEState)
    (hMay : deviceInUseByMayastor bd = true)
    (hPart : bd.deviceAttributes.deviceType = blockDeviceTypePartition)
    (hPB : cacheLookup s.cache bd.dependentDevices.parent = none) :
    processAddEvent env bd s =
      ⟨.error (.zfsParentMissing bd.devPath), s.cache, s.store, []⟩ := by
  simp [processAddEvent, addBlockDevice, handleUnmanagedDevices, hMay,
    deviceInUseByZFSLocalPV, hPart, hPB]

theorem addBD_zfs_parent_inuse_eval (env : Env) (bd : BlockDevice) (s : PEState)
    (p0 : BlockDevice)
    (hMay : deviceInUseByMayastor bd = true)
    (hPart : bd.deviceAttributes.deviceType = blockDeviceTypePartition)
    (hPB : cacheLookup s.cache bd.dependentDevices.parent = some p0)
    (hpz : p0.devUse.inUse = true ∧ p0.devUse.usedBy = DeviceUsedBy.zfsLocalPV) :
    processAddEvent env bd s = ⟨.ok (), s.cache, s.store, []⟩ := by
  simp [processAddEvent, addBlockDevice, handleUnmanagedDevices, hMay,
    deviceInUseByZFSLocalPV, hPart, hPB, hpz]

theorem handleUnmanaged_tail_eval (env : Env) (bd : BlockDevice) (cache : Cache)
    (store : Store)
    (hMay : deviceInUseByMayastor bd = true)
    (hcls : bd.deviceAttributes.deviceType = blockDeviceTypePartition →
      ∃ p0, cacheLookup cache bd.dependentDevices.parent = some p0 ∧
        ¬(p0.devUse.inUse = true ∧ p0.devUse.usedBy = DeviceUsedBy.zfsLocalPV)) :
    handleUnmanagedDevices env bd cache store = deviceInUseByZFSLocalPVTail env bd store := by
  by_cases hPart : bd.deviceAttributes.deviceType = blockDeviceTypePartition
  · obtain ⟨p0, hp0, hpz⟩ := hcls hPart
    simp [handleUnmanagedDevices, hMay, deviceInUseByZFSLocalPV, hPart, hp0, hpz]
  · simp [handleUnmanagedDevices, hMay, deviceInUseByZFSLocalPV, hPart]

/-- The shadow resource the ZFS classifier writes for a zfs-localPV device
under partition-table identity `u`. -/
def zfsResourceFor (bd : BlockDevice) (u : String) : BDResource :=
  { toDeviceResource { bd with uuid := u } with
    labels := insertKV (toDeviceResource { bd with uuid := u }).labels
      blockDeviceTagLabel zfsLocalPVString }

theorem zfsResourceFor_name (bd : BlockDevice) (u : String) :
    (zfsResourceFor bd u).name = u := rfl

theorem zfsTail_zfs_eval (env : Env) (bd : BlockDevice) (store : Store) (u : String)
    (hIn : bd.devUse.inUse = true)
    (hZ : bd.devUse.usedBy = DeviceUsedBy.zfsLocalPV)
    (hPT : env.generateUUIDFromPartitionTable bd = some u) :
    deviceInUseByZFSLocalPVTail env bd store =
      (match storeCreate store (zfsResourceFor bd u) with
       | .error e => (.error e, store, [Effect.createBD (zfsResourceFor bd u)])
       | .ok s' => (.ok false, s', [Effect.createBD (zfsResourceFor bd u)])) := by
  simp [deviceInUseByZFSLocalPVTail, hIn, hZ, hPT, zfsResourceFor]

theorem idem_zfs (env : Env) (bd : BlockDevice) (s : PEState)
    (hMay : deviceInUseByMayastor bd = true)
    (hcls : bd.deviceAttributes.deviceType = blockDeviceTypePartition →
      ∃ p0, cacheLookup s.cache bd.dependentDevices.parent = some p0 ∧
        ¬(p0.devUse.inUse = true ∧ p0.devUse.usedBy = DeviceUsedBy.zfsLocalPV))
    (hIn : bd.devUse.inUse = true)
    (hZ : bd.devUse.usedBy = DeviceUsedBy.zfsLocalPV) :
    (processAddEvent env bd (afterState (processAddEvent env bd s))).store
      = (processAddEvent env bd s).store := by
  have htl := handleUnmanaged_tail_eval env bd s.cache s.store hMay hcls
  rcases hPT : env.generateUUIDFromPartitionTable bd with _ | u
  · apply idem_of_noop
    have ht : deviceInUseByZFSLocalPVTail env bd s.store =
        (.error (.zfsUUIDGenFailed bd.devPath), s.store, []) := by
      simp [deviceInUseByZFSLocalPVTail, hIn, hZ, hPT]
    have hev : processAddEvent env bd s =
        ⟨.error (.zfsUUIDGenFailed bd.devPath), s.cache, s.store, []⟩ := by
      simp [processAddEvent, addBlockDevice, htl, ht]
    rw [hev]
    rfl
  · have hzt := zfsTail_zfs_eval env bd s.store u hIn hZ hPT
    rcases hSG : storeGet s.store u with _ | w
    · have hsc : storeCreate s.store (zfsResourceFor bd u) =
          .ok (s.store ++ [zfsResourceFor bd u]) := by
        unfold storeCreate
        rw [zfsResourceFor_name, hSG]
      have hev1 : processAddEvent env bd s =
          ⟨.ok (), s.cache, s.store ++ [zfsResourceFor bd u],
           [Effect.createBD (zfsResourceFor bd u)]⟩ := by
        simp [processAddEvent, addBlockDevice, htl, hzt, hsc]
      rw [hev1]
      simp only [afterState]
      have htl2 := handleUnmanaged_tail_eval env bd s.cache
        (s.store ++ [zfsResourceFor bd u]) hMay hcls
      have hzt2 := zfsTail_zfs_eval env bd (s.store ++ [zfsResourceFor bd u]) u hIn hZ hPT
      have hSG2 : storeGet (s.store ++ [zfsResourceFor bd u]) u =
          some (zfsResourceFor bd u) := by
        rw [storeGet_append_of_none _ _ _ hSG]
        simp [zfsResourceFor_name]
      have hsc2 : storeCreate (s.store ++ [zfsResourceFor bd u]) (zfsResourceFor bd u) =
          .error (.alreadyExists u) := by
        unfold storeCreate
        rw [zfsResourceFor_name, hSG2]
      have hev2 : processAddEvent env bd
          ⟨s.cache, s.store ++ [zfsResourceFor bd u]⟩ =
          ⟨.error (.alreadyExists u), s.cache, s.store ++ [zfsResourceFor bd u],
           [Effect.createBD (zfsResourceFor bd u)]⟩ := by
        simp [processAddEvent, addBlockDevice, htl2, hzt2, hsc2]
      rw [hev2]
    · have hsc : storeCreate s.store (zfsResourceFor bd u) =
          .error (.alreadyExists u) := by
        unfold storeCreate
        rw [zfsResourceFor_name, hSG]
      apply idem_of_noop
      have hev : processAddEvent env bd s =
          ⟨.error (.alreadyExists u), s.cache, s.store,
           [Effect.createBD (zfsResourceFor bd u)]⟩ := by
        simp [processAddEvent, addBlockDevice, htl, hzt, hsc]
      rw [hev]
      rfl

theorem idem_after_classifier (env : Env) (bd : BlockDevice) (s : PEState)
    (hMay : deviceInUseByMayastor bd = true)
    (hTail : ¬(bd.devUse.inUse = true ∧ bd.devUse.usedBy = DeviceUsedBy.zfsLocalPV))
    (hcls2 : bd.deviceAttributes.deviceType = blockDeviceTypePartition →
      ∃ p0, cacheLookup s.cache bd.dependentDevices.parent = some p0 ∧
        p0.devUse.inUse = false) :
    (processAddEvent env bd (afterState (processAddEvent env bd s))).store
      = (processAddEvent env bd s).store := by
  by_cases hLPCS : bd.devUse.inUse = true ∧
      (bd.devUse.usedBy = DeviceUsedBy.localPV ∨ bd.devUse.usedBy = DeviceUsedBy.cstor)
  · obtain ⟨hIn, hUB⟩ := hLPCS
    rcases hU : env.generateUUID bd with _ | U
    · exact idem_legacy env bd s hMay hTail hcls2 hIn hUB
        (fun u hu => by rw [hU] at hu; cases hu)
    · rcases hSG : storeGet s.store U with _ | r
      · refine idem_legacy env bd s hMay hTail hcls2 hIn hUB (fun u hu => ?_)
        rw [hU] at hu
        injection hu with h
        subst h
        rw [getExisting_eq_storeGet]
        exact hSG
      · by_cases hC : r.claimState = ClaimState.unclaimed
        · have hcls : bd.deviceAttributes.deviceType = blockDeviceTypePartition →
              ∃ p0, cacheLookup s.cache bd.dependentDevices.parent = some p0 ∧
                ¬(p0.devUse.inUse = true ∧
                  p0.devUse.usedBy = DeviceUsedBy.zfsLocalPV) := by
            intro hPart
            obtain ⟨p0, hp0, hpin⟩ := hcls2 hPart
            exact ⟨p0, hp0, fun hx => by simp [hpin] at hx⟩
          have h1 := classifier_true_eval env bd s.cache s.store hMay hcls hTail
          have hIP : isParentDeviceInUse bd s.cache = .ok false := by
            by_cases hPart : bd.deviceAttributes.deviceType = blockDeviceTypePartition
            · obtain ⟨p0, hp0, hpin⟩ := hcls2 hPart
              simp [isParentDeviceInUse, hPart, hp0, hpin]
            · simp [isParentDeviceInUse, hPart]
          have hupe := upgradeBD_gpt_unclaimed env bd s.store s.store U r hIn hUB hU
            (by rw [getExisting_eq_storeGet]; exact hSG) hC
          apply idem_of_noop
          rw [addBD_upgrade_error_eval env bd s _ _ _ h1 hIP hupe]
          rfl
        · exact idem_generic_claimed env bd s U r hMay hTail hcls2 hU hSG hC
  · have hUp : ∀ snapshot store, upgradeBD env bd snapshot store = (.ok true, store, []) := by
      apply upgradeBD_easy
      by_cases hIn : bd.devUse.inUse = true
      · right
        constructor
        · intro h
          exact hLPCS ⟨hIn, Or.inl h⟩
        · intro h
          exact hLPCS ⟨hIn, Or.inr h⟩
      · left
        rw [Bool.not_eq_true] at hIn
        exact hIn
    exact idem_generic env bd s hMay hTail hcls2 hUp

/-- C3: For every add event and every starting store state, processing the
event twice in succession (the second run starting from the store and
hierarchy cache produced by the first) yields the same final store state as
processing it once: no duplicate resource is created for an identifier and
no resource flaps between states. -/
theorem C3_idempotent (env : Env) (bd : BlockDevice) (s : PEState) :
    (processAddEvent env bd (afterState (processAddEvent env bd s))).store
      = (processAddEvent env bd s).store := by
  by_cases hMay : deviceInUseByMayastor bd = true
  · by_cases hPart : bd.deviceAttributes.deviceType = blockDeviceTypePartition
    · rcases hPB : cacheLookup s.cache bd.dependentDevices.parent with _ | p0
      · apply idem_of_noop
        rw [addBD_zfs_parent_missing_eval env bd s hMay hPart hPB]
        rfl
      · by_cases hpz : p0.devUse.inUse = true ∧ p0.devUse.usedBy = DeviceUsedBy.zfsLocalPV
        · apply idem_of_noop
          rw [addBD_zfs_parent_inuse_eval env bd s p0 hMay hPart hPB hpz]
          rfl
        · have hcls : bd.deviceAttributes.deviceType = blockDeviceTypePartition →
              ∃ q, cacheLookup s.cache bd.dependentDevices.parent = some q ∧
                ¬(q.devUse.inUse = true ∧ q.devUse.usedBy = DeviceUsedBy.zfsLocalPV) :=
            fun _ => ⟨p0, hPB, hpz⟩
          by_cases hZbd : bd.devUse.inUse = true ∧
              bd.devUse.usedBy = DeviceUsedBy.zfsLocalPV
          · exact idem_zfs env bd s hMay hcls hZbd.1 hZbd.2
          · by_cases hpin : p0.devUse.inUse = true
            · have h1 := classifier_true_eval env bd s.cache s.store hMay hcls hZbd
              have hIP : isParentDeviceInUse bd s.cache = .ok true := by
                simp [isParentDeviceInUse, hPart, hPB, hpin]
              apply idem_of_noop
              rw [addBD_absorb_isParent env bd s h1 hIP]
              rfl
            · rw [Bool.not_eq_true] at hpin
              exact idem_after_classifier env bd s hMay hZbd (fun _ => ⟨p0, hPB, hpin⟩)
    · by_cases hZbd : bd.devUse.inUse = true ∧ bd.devUse.usedBy = DeviceUsedBy.zfsLocalPV
      · exact idem_zfs env bd s hMay (fun h => absurd h hPart) hZbd.1 hZbd.2
      · exact idem_after_classifier env bd s hMay hZbd (fun h => absurd h hPart)
  · rw [Bool.not_eq_true] at hMay
    apply idem_of_noop
    rw [addBD_mayastor_eval env bd s hMay]
    rfl
